import Mathlib

/-!
NetworkManager-openconnect editor plugin: profile import and export, protocol
catalog and add-detail lookup.

A shallow embedding of `properties/nm-openconnect-editor-plugin.c`.

* C strings are lists of characters (`Str`); the terminating NUL is the end of
  the list, a `NULL` pointer is `none`.
* The plugin reads profiles through GLib's `GKeyFile` and writes them with
  `fprintf`. Both library routines are embedded here as far as the plugin
  observes them: the key-file reader follows `gkeyfile.c` (GLib 2.74), the
  writer follows the format string of `export`.
* A connection is the part of an `NMConnection` the plugin touches: the
  connection id, and the data items and secrets of the VPN setting.
-/

namespace NMOpenconnect

/-- C string: the characters before the terminating NUL. -/
abbrev Str := List Char

/-! ## GLib: character classes -/

/-- The white-space class of `g_ascii_isspace`: space, `\t`, `\n`, `\f`, `\r`
(vertical tab is not part of it). -/
def g_ascii_isspace (c : Char) : Bool :=
  c == ' ' || c == '\t' || c == '\n' || c == '\x0c' || c == '\r'

/-- The control class of `g_ascii_iscntrl`: codes below 0x20 and 0x7f. -/
def g_ascii_iscntrl (c : Char) : Bool :=
  decide (c.toNat < 32) || c.toNat == 127

/-- Characters allowed in the locale tag of a key (`Key[locale]`):
alphanumerics and `-`, `_`, `.`, `@`. GLib asks `g_unichar_isalnum`; the
embedding tests the ASCII letters and digits, so a key whose locale tag holds a
letter or digit outside ASCII is refused here while GLib takes it: a file with
such a key does not load in the embedding. -/
def locale_tag_char (c : Char) : Bool :=
  c.isAlphanum || c == '-' || c == '_' || c == '.' || c == '@'

/-! ## GLib: the key file -/

/-- Parsed key file as the lookups see it. `groups` maps a group name to its
key/value pairs, most recent pair first (GLib prepends), which is the pair the
group's lookup table answers with. Comment lines are kept by GLib under a
`NULL` key that no lookup reaches; they are left out. -/
structure GKeyFile where
  groups : List (Str × List (Str × Str))
  start_group : Option Str
  current_group : Option Str
deriving DecidableEq, Repr

/-- State after `g_key_file_new`: no named group yet. -/
def g_key_file_new : GKeyFile := ⟨[], none, none⟩

/-- The pairs of the group of that name, `none` when there is no such group. -/
def g_key_file_lookup_group (key_file : GKeyFile) (group_name : Str) :
    Option (List (Str × Str)) :=
  key_file.groups.lookup group_name

/-- Re-entering a known group makes it current; a new group is prepended and
becomes current, and the first group ever added is the start group. -/
def g_key_file_add_group (key_file : GKeyFile) (group_name : Str) : GKeyFile :=
  match g_key_file_lookup_group key_file group_name with
  | some _ => { key_file with current_group := some group_name }
  | none =>
    { groups := (group_name, []) :: key_file.groups
      start_group := match key_file.start_group with
        | some g => some g
        | none => some group_name
      current_group := some group_name }

/-- Insert the pair in the named group (`g_hash_table_replace` on the lookup
table plus `g_list_prepend` on the pair list). -/
def g_key_file_add_key_value_pair (key_file : GKeyFile) (group : Str)
    (key value : Str) : GKeyFile :=
  { key_file with
    groups := key_file.groups.map fun g =>
      if g.1 = group then (g.1, (key, value) :: g.2) else g }

/-- A comment line starts with `#`; the empty line is one too. -/
def g_key_file_line_is_comment (line : Str) : Bool :=
  match line with
  | [] => true
  | c :: _ => c == '#' || c == '\n'

/-- An opening bracket, anything up to the first closing bracket, then only
blanks and tabs. -/
def g_key_file_line_is_group (line : Str) : Bool :=
  match line with
  | [] => false
  | c :: p =>
    c == '[' &&
      match p.dropWhile (fun x => x != ']') with
      | [] => false
      | _ :: q => (q.dropWhile fun x => x == ' ' || x == '\t').isEmpty

/-- The line holds an equals sign and does not start with it. -/
def g_key_file_line_is_key_value_pair (line : Str) : Bool :=
  line.contains '=' && !(line.head? == some '=')

/-- A group name is not empty and holds no bracket and no control character. -/
def g_key_file_is_group_name (name : Str) : Bool :=
  !name.isEmpty && name.all fun c => c != ']' && c != '[' && !g_ascii_iscntrl c

/-- A key name is a non-empty run of characters other than `=`, `[`, `]` that
neither starts nor ends with a blank, optionally followed by a locale tag in
brackets. -/
def g_key_file_is_key_name (name : Str) : Bool :=
  let body := name.takeWhile fun c => !(c == '=' || c == '[' || c == ']')
  let q := name.dropWhile fun c => !(c == '=' || c == '[' || c == ']')
  if body.isEmpty then false
  else if body.head? == some ' ' || body.getLast? == some ' ' then false
  else
    match q with
    | [] => true
    | c :: q1 =>
      c == '[' &&
        match q1.dropWhile locale_tag_char with
        | [] => false
        | d :: q2 => d == ']' && q2.isEmpty

/-- The group name lies between the opening bracket and the last closing one. -/
def g_key_file_parse_group (key_file : GKeyFile) (line : Str) : Option GKeyFile :=
  let group_name := (((line.drop 1).reverse.dropWhile fun c => c != ']').drop 1).reverse
  if g_key_file_is_group_name group_name then
    some (g_key_file_add_group key_file group_name)
  else none

/-- The key is the text before the first equals sign without trailing white
space, the value the text after it without leading white space. A pair outside
any group, an invalid key name, or an `Encoding` other than UTF-8 in the start
group is a parse error. With `G_KEY_FILE_KEEP_TRANSLATIONS` (the flag `import`
passes) the pair is stored for every locale tag. -/
def g_key_file_parse_key_value_pair (key_file : GKeyFile) (line : Str) :
    Option GKeyFile :=
  match key_file.current_group with
  | none => none
  | some current =>
    let key := ((line.takeWhile fun c => c != '=').reverse.dropWhile g_ascii_isspace).reverse
    if !g_key_file_is_key_name key then none
    else
      let value := ((line.dropWhile fun c => c != '=').drop 1).dropWhile g_ascii_isspace
      if key_file.start_group = some current ∧ key = "Encoding".toList ∧
          value.map Char.toLower ≠ "utf-8".toList then none
      else some (g_key_file_add_key_value_pair key_file current key value)

/-- One line: leading white space is skipped, then the line is a comment, a
group header or a key/value pair; anything else is a parse error. -/
def g_key_file_parse_line (key_file : GKeyFile) (line : Str) : Option GKeyFile :=
  let line_start := line.dropWhile g_ascii_isspace
  if g_key_file_line_is_comment line_start then some key_file
  else if g_key_file_line_is_group line_start then
    g_key_file_parse_group key_file line_start
  else if g_key_file_line_is_key_value_pair line_start then
    g_key_file_parse_key_value_pair key_file line_start
  else none

/-- End of data: a pending unterminated line is parsed as it stands. -/
def g_key_file_flush_parse_buffer (key_file : GKeyFile) (parse_buffer : Str) :
    Option GKeyFile :=
  if parse_buffer.isEmpty then some key_file
  else g_key_file_parse_line key_file parse_buffer

/-- Feed the data through the parse buffer: characters collect in the buffer
until a line feed; there one trailing carriage return is dropped and the line
is parsed (an empty line is a comment). -/
def g_key_file_parse_data : GKeyFile → Str → Str → Option GKeyFile
  | key_file, parse_buffer, [] => g_key_file_flush_parse_buffer key_file parse_buffer
  | key_file, parse_buffer, c :: data =>
    if c == '\n' then
      let line := if parse_buffer.getLast? == some '\r' then parse_buffer.dropLast
                  else parse_buffer
      match (if line.isEmpty then some key_file
             else g_key_file_parse_line key_file line) with
      | none => none
      | some key_file1 => g_key_file_parse_data key_file1 [] data
    else g_key_file_parse_data key_file (parse_buffer ++ [c]) data

/-- Load a file given by its contents; `none` as contents is a file that cannot
be opened or read. The result `none` is GLib's `FALSE` return. -/
def g_key_file_load_from_file (contents : Option Str) : Option GKeyFile :=
  match contents with
  | none => none
  | some data => g_key_file_parse_data g_key_file_new [] data

/-- Raw value of a key; `none` is the `NULL` return (no such group or key). -/
def g_key_file_get_value (key_file : GKeyFile) (group_name key : Str) : Option Str :=
  match g_key_file_lookup_group key_file group_name with
  | none => none
  | some pairs => pairs.lookup key

/-- Decode the escape sequences `\s`, `\n`, `\t`, `\r` and `\\`. Any other
escape stays as written, and a backslash that ends the value is dropped; GLib
reports both through the `GError` only and still returns the string. -/
def g_key_file_parse_value_as_string : Str → Str
  | [] => []
  | [c] => if c == '\\' then [] else [c]
  | c :: e :: p =>
    if c == '\\' then
      (if e == 's' then [' ']
       else if e == 'n' then ['\n']
       else if e == 't' then ['\t']
       else if e == 'r' then ['\r']
       else if e == '\\' then ['\\']
       else ['\\', e]) ++ g_key_file_parse_value_as_string p
    else c :: g_key_file_parse_value_as_string (e :: p)

/-- String value of a key: the raw value with the escape sequences decoded.
GLib returns NULL as well when the raw value is not valid UTF-8; lists of `Char`
are valid UTF-8 by construction, so that check never rejects here, and a file
that is not UTF-8 text has no counterpart among the inputs. -/
def g_key_file_get_string (key_file : GKeyFile) (group_name key : Str) : Option Str :=
  match g_key_file_get_value key_file group_name key with
  | none => none
  | some value => some (g_key_file_parse_value_as_string value)

/-- Equality of the first `n` characters (`strncmp (a, b, n) == 0`). -/
def strncmp_eq (a b : Str) (n : Nat) : Bool :=
  a.take n == b.take n

/-- Index one past the last character that is not white space. -/
def non_space_length (value : Str) : Nat :=
  (value.reverse.dropWhile g_ascii_isspace).length

/-- `true` and `1` are TRUE, everything else (also `false`, `0` and an
unparsable value, which only sets the `GError`) is FALSE. Trailing white space
is not compared. -/
def g_key_file_parse_value_as_boolean (value : Str) : Bool :=
  let length := non_space_length value
  strncmp_eq value "true".toList (max length 4) ||
    strncmp_eq value "1".toList (max length 1)

/-- Boolean value of a key; a missing key or group gives FALSE. -/
def g_key_file_get_boolean (key_file : GKeyFile) (group_name key : Str) : Bool :=
  match g_key_file_get_value key_file group_name key with
  | none => false
  | some value => g_key_file_parse_value_as_boolean value

/-! ## libc: `fprintf` -/

/-- Text that `%s` prints for its argument. For a `NULL` argument glibc prints
`(null)`; this is the text the comment in `import` says the exporter used to
write. -/
def fprintf_s (arg : Option Str) : Str :=
  match arg with
  | some s => s
  | none => "(null)".toList

/-! ## libnm: connection and VPN setting -/

/-- The `NM_OPENCONNECT_KEY_*` names of the data items and secrets the plugin
uses. The macros expand to distinct string constants of the service header;
they are kept symbolic. -/
inductive OCKey where
  | GATEWAY | CACERT | PROTOCOL | PROXY | CSD_ENABLE | CSD_WRAPPER | REPORTED_OS
  | USERCERT | PRIVKEY | PEM_PASSPHRASE_FSID | PREVENT_INVALID_CERT
  | TOKEN_MODE | TOKEN_SECRET
deriving DecidableEq, Repr

/-- The two string tables of an `NMSettingVpn` and its service type, with the
tables cut down to the keys the plugin reads and writes. -/
structure NMSettingVpn where
  service_type : Option Str
  data : List (OCKey × Str)
  secrets : List (OCKey × Str)
deriving DecidableEq, Repr

/-- Hash-table insert: the new value takes the place of an older one. -/
def strdict_insert (d : List (OCKey × Str)) (key : OCKey) (item : Str) :
    List (OCKey × Str) :=
  (key, item) :: d.filter fun e => e.1 != key

def nm_setting_vpn_new : NMSettingVpn := ⟨none, [], []⟩

/-- Store the item under the key. The item is a string (`import` never passes
`NULL`); an empty string is stored like any other. -/
def nm_setting_vpn_add_data_item (s_vpn : NMSettingVpn) (key : OCKey) (item : Str) :
    NMSettingVpn :=
  { s_vpn with data := strdict_insert s_vpn.data key item }

/-- Store the secret under the key, an empty string like any other. -/
def nm_setting_vpn_add_secret (s_vpn : NMSettingVpn) (key : OCKey) (secret : Str) :
    NMSettingVpn :=
  { s_vpn with secrets := strdict_insert s_vpn.secrets key secret }

/-- The item stored under the key, `none` (`NULL`) when there is none. -/
def nm_setting_vpn_get_data_item (s_vpn : NMSettingVpn) (key : OCKey) : Option Str :=
  s_vpn.data.lookup key

/-- The secret stored under the key, `none` (`NULL`) when there is none. -/
def nm_setting_vpn_get_secret (s_vpn : NMSettingVpn) (key : OCKey) : Option Str :=
  s_vpn.secrets.lookup key

/-- The connection as the plugin sees it: the id of the connection setting
(`none` when `nm_setting_connection_get_id` returns `NULL`), the VPN setting,
and whether an IPv4 setting is attached. -/
structure NMConnection where
  id : Option Str
  s_vpn : NMSettingVpn
  s_ip4 : Bool
deriving DecidableEq, Repr

/-! ## The plugin: import and export -/

/-- The error codes of the import/export error domain. -/
inductive NMOpenconnectImportError where
  | UNKNOWN
  | NOT_OPENCONNECT
  | BAD_DATA
deriving DecidableEq, Repr

/-- The section name `"openconnect"` of the profile file. -/
def section_name : Str := "openconnect".toList

/-- `if (buf) nm_setting_vpn_add_data_item (s_vpn, key, buf);` -/
def add_data_item_if (s_vpn : NMSettingVpn) (key : OCKey) (buf : Option Str) :
    NMSettingVpn :=
  match buf with
  | some b => nm_setting_vpn_add_data_item s_vpn key b
  | none => s_vpn

/-- `if (buf && strcmp (buf, "(null)")) nm_setting_vpn_add_data_item (...)` -/
def add_data_item_unless_null (s_vpn : NMSettingVpn) (key : OCKey) (buf : Option Str) :
    NMSettingVpn :=
  match buf with
  | some b => if b ≠ "(null)".toList then nm_setting_vpn_add_data_item s_vpn key b else s_vpn
  | none => s_vpn

/-- `if (buf) nm_setting_vpn_add_secret (s_vpn, key, buf);` -/
def add_secret_if (s_vpn : NMSettingVpn) (key : OCKey) (buf : Option Str) : NMSettingVpn :=
  match buf with
  | some b => nm_setting_vpn_add_secret s_vpn key b
  | none => s_vpn

/-- `if (bval) nm_setting_vpn_add_data_item (s_vpn, key, "yes");` -/
def add_yes_if (s_vpn : NMSettingVpn) (key : OCKey) (bval : Bool) : NMSettingVpn :=
  if bval then nm_setting_vpn_add_data_item s_vpn key "yes".toList else s_vpn

/-- The body of `import` once the key file is loaded and `Host` was found: the
new connection with its three settings, filled key by key in the order of the
source. The boolean read for `PreventInvalidCert` is not used; the item is set
under `if (true)`. -/
def import_settings (service : Str) (keyfile : GKeyFile) (host : Str) : NMConnection :=
  let s_vpn := { nm_setting_vpn_new with service_type := some service }
  let s_vpn := nm_setting_vpn_add_data_item s_vpn .GATEWAY host
  let id := g_key_file_get_string keyfile section_name "Description".toList
  let s_vpn := add_data_item_unless_null s_vpn .CACERT
    (g_key_file_get_string keyfile section_name "CACert".toList)
  let s_vpn := add_data_item_if s_vpn .PROTOCOL
    (g_key_file_get_string keyfile section_name "Protocol".toList)
  let s_vpn := add_data_item_if s_vpn .PROXY
    (g_key_file_get_string keyfile section_name "Proxy".toList)
  let s_vpn := add_yes_if s_vpn .CSD_ENABLE
    (g_key_file_get_boolean keyfile section_name "CSDEnable".toList)
  let s_vpn := add_data_item_if s_vpn .CSD_WRAPPER
    (g_key_file_get_string keyfile section_name "CSDWrapper".toList)
  let s_vpn := add_data_item_if s_vpn .REPORTED_OS
    (g_key_file_get_string keyfile section_name "ReportedOS".toList)
  let s_vpn := add_data_item_unless_null s_vpn .USERCERT
    (g_key_file_get_string keyfile section_name "UserCertificate".toList)
  let s_vpn := add_data_item_unless_null s_vpn .PRIVKEY
    (g_key_file_get_string keyfile section_name "PrivateKey".toList)
  let s_vpn := add_yes_if s_vpn .PEM_PASSPHRASE_FSID
    (g_key_file_get_boolean keyfile section_name "FSID".toList)
  let _bval := g_key_file_get_boolean keyfile section_name "PreventInvalidCert".toList
  let s_vpn := add_yes_if s_vpn .PREVENT_INVALID_CERT true
  let s_vpn := add_data_item_if s_vpn .TOKEN_MODE
    (g_key_file_get_string keyfile section_name "StokenSource".toList)
  let s_vpn := add_secret_if s_vpn .TOKEN_SECRET
    (g_key_file_get_string keyfile section_name "StokenString".toList)
  { id := id, s_vpn := s_vpn, s_ip4 := true }

/-- The function `import`. `contents` is what the file at `path` holds (`none`
when it cannot be read), `service` the string `NM_VPN_SERVICE_TYPE_OPENCONNECT`.
The result is the new connection, or the error set together with the `NULL`
return. -/
def import_ (service : Str) (contents : Option Str) :
    Except NMOpenconnectImportError NMConnection :=
  match g_key_file_load_from_file contents with
  | none => .error .NOT_OPENCONNECT
  | some keyfile =>
    match g_key_file_get_string keyfile section_name "Host".toList with
    | none => .error .BAD_DATA
    | some buf => .ok (import_settings service keyfile buf)

/-- `if (value && strlen (value)) x = value;` with `x` initialised to `NULL`. -/
def non_empty (value : Option Str) : Option Str :=
  match value with
  | some v => if v.length ≠ 0 then some v else none
  | none => none

/-- `if (value && !strcmp (value, "yes")) x = TRUE;` with `x` initialised to
`FALSE`. -/
def is_yes (value : Option Str) : Bool :=
  match value with
  | some v => v == "yes".toList
  | none => false

/-- `x ? x : ""` -/
def or_empty (x : Option Str) : Str := x.getD []

/-- `x ? "1" : "0"` -/
def one_or_zero (x : Bool) : Str := if x then "1".toList else "0".toList

/-- The token secret `export` writes: the secret if it is a non-empty string,
else the data item under the same key if that is non-empty. -/
def export_token_secret (s_vpn : NMSettingVpn) : Option Str :=
  match non_empty (nm_setting_vpn_get_secret s_vpn .TOKEN_SECRET) with
  | some v => some v
  | none => non_empty (nm_setting_vpn_get_data_item s_vpn .TOKEN_SECRET)

/-- The arguments of the single `fprintf` call of `export`, each next to the
key its `%s` stands behind in the format string. `none` is a `NULL` argument. -/
def export_arguments (connection : NMConnection) (gateway : Str) :
    List (Str × Option Str) :=
  let s_vpn := connection.s_vpn
  let cacert := non_empty (nm_setting_vpn_get_data_item s_vpn .CACERT)
  let protocol := non_empty (nm_setting_vpn_get_data_item s_vpn .PROTOCOL)
  let proxy := non_empty (nm_setting_vpn_get_data_item s_vpn .PROXY)
  let csd_enable := is_yes (nm_setting_vpn_get_data_item s_vpn .CSD_ENABLE)
  let csd_wrapper := non_empty (nm_setting_vpn_get_data_item s_vpn .CSD_WRAPPER)
  let reported_os := non_empty (nm_setting_vpn_get_data_item s_vpn .REPORTED_OS)
  let usercert := non_empty (nm_setting_vpn_get_data_item s_vpn .USERCERT)
  let privkey := non_empty (nm_setting_vpn_get_data_item s_vpn .PRIVKEY)
  let pem_passphrase_fsid := is_yes (nm_setting_vpn_get_data_item s_vpn .PEM_PASSPHRASE_FSID)
  let prevent_invalid_cert := is_yes (nm_setting_vpn_get_data_item s_vpn .PREVENT_INVALID_CERT)
  let token_mode := non_empty (nm_setting_vpn_get_data_item s_vpn .TOKEN_MODE)
  let token_secret := export_token_secret s_vpn
  [ ("Description".toList, connection.id),
    ("Host".toList, some gateway),
    ("CACert".toList, some (or_empty cacert)),
    ("Protocol".toList, some (protocol.getD "anyconnect".toList)),
    ("Proxy".toList, some (or_empty proxy)),
    ("CSDEnable".toList, some (one_or_zero csd_enable)),
    ("CSDWrapper".toList, some (or_empty csd_wrapper)),
    ("ReportedOS".toList, some (or_empty reported_os)),
    ("UserCertificate".toList, some (or_empty usercert)),
    ("PrivateKey".toList, some (or_empty privkey)),
    ("FSID".toList, some (one_or_zero pem_passphrase_fsid)),
    ("PreventInvalidCert".toList, some (one_or_zero prevent_invalid_cert)),
    ("StokenSource".toList, some (or_empty token_mode)),
    ("StokenString".toList, some (or_empty token_secret)) ]

/-- The `Key=%s\n` pieces of the format string filled with their arguments. -/
def fprintf_key_lines : List (Str × Option Str) → Str
  | [] => []
  | (key, arg) :: rest => key ++ '=' :: fprintf_s arg ++ '\n' :: fprintf_key_lines rest

/-- The text the `fprintf` call of `export` writes. -/
def export_fprintf (connection : NMConnection) (gateway : Str) : Str :=
  "[openconnect]\n".toList ++ fprintf_key_lines (export_arguments connection gateway)

/-- What a call of `export` leaves behind: the return value, the error set, and
the destination file (`none`: not opened, so as it was before; `some s`:
truncated by `fopen (path, "w")` and then holding `s`). -/
structure ExportResult where
  success : Bool
  error : Option NMOpenconnectImportError
  file : Option Str
deriving DecidableEq, Repr

/-- The function `export`. `fopen_ok` tells whether `fopen (path, "w")`
succeeds. The return value of `fprintf` is not looked at, so the call returns
TRUE once the gateway is there. -/
def export_ (fopen_ok : Bool) (connection : NMConnection) : ExportResult :=
  if !fopen_ok then
    { success := false, error := some .UNKNOWN, file := none }
  else
    match non_empty (nm_setting_vpn_get_data_item connection.s_vpn .GATEWAY) with
    | none => { success := false, error := some .BAD_DATA, file := some [] }
    | some gateway =>
      { success := true, error := none, file := some (export_fprintf connection gateway) }

/-! ## The plugin: protocol catalog and add-detail lookup -/

/-- The capability bits of a protocol (`OC_PROTO_*`). -/
def OC_PROTO_PROXY : Nat := 1 <<< 0
def OC_PROTO_CSD : Nat := 1 <<< 1
def OC_PROTO_AUTH_CERT : Nat := 1 <<< 2
def OC_PROTO_AUTH_OTP : Nat := 1 <<< 3
def OC_PROTO_AUTH_STOKEN : Nat := 1 <<< 4

/-- One supported protocol, as in the fallback declaration of the source. -/
structure oc_vpn_proto where
  name : Str
  pretty_name : Str
  description : Str
  flags : Nat
deriving DecidableEq, Repr, Inhabited

/-- The fallback of `openconnect_get_supported_protocols` (library older than
API 5.5): the array of two entries and the count returned, 2 when
`OPENCONNECT_CHECK_VER(5,2)` holds and 1 otherwise. The allocation is taken to
succeed, and the message texts are the untranslated ones. -/
def openconnect_get_supported_protocols (check_ver_5_2 : Bool) :
    Nat × List oc_vpn_proto :=
  let pr : List oc_vpn_proto :=
    [ { name := "anyconnect".toList
        pretty_name := "Cisco AnyConnect or openconnect".toList
        description := "Compatible with Cisco AnyConnect SSL VPN, as well as ocserv".toList
        flags := OC_PROTO_PROXY ||| OC_PROTO_CSD ||| OC_PROTO_AUTH_CERT |||
          OC_PROTO_AUTH_OTP ||| OC_PROTO_AUTH_STOKEN },
      { name := "nc".toList
        pretty_name := "Juniper Network Connect".toList
        description := "Compatible with Juniper Network Connect".toList
        flags := OC_PROTO_PROXY ||| OC_PROTO_CSD ||| OC_PROTO_AUTH_CERT |||
          OC_PROTO_AUTH_OTP } ]
  (if check_ver_5_2 then 2 else 1, pr)

/-- The private data of the plugin object: the protocol array and the number
of its entries in use. -/
structure OpenconnectEditorPluginPrivate where
  nr_supported_protocols : Nat
  supported_protocols : List oc_vpn_proto
deriving DecidableEq, Repr

/-- What `notify_plugin_info_set` stores in the private data. -/
def notify_plugin_info_set (check_ver_5_2 : Bool) : OpenconnectEditorPluginPrivate :=
  let r := openconnect_get_supported_protocols check_ver_5_2
  { nr_supported_protocols := r.1, supported_protocols := r.2 }

/-- The catalog: the entries the loops over `nr_supported_protocols` visit. -/
def catalog (priv : OpenconnectEditorPluginPrivate) : List oc_vpn_proto :=
  priv.supported_protocols.take priv.nr_supported_protocols

/-- The out-parameters of `_vt_impl_get_service_add_detail`. A key or value
of `none` was not written by the call. -/
structure AddDetail where
  pretty_name : Str
  description : Str
  add_detail_key : Option OCKey
  add_detail_val : Option Str
  flags : Nat
deriving DecidableEq, Repr

/-- The `for` loop of `_vt_impl_get_service_add_detail` from index `i` on. -/
def add_detail_loop (add_detail : Str) : Nat → List oc_vpn_proto → Option AddDetail
  | _, [] => none
  | i, p :: rest =>
    if add_detail ≠ p.name then add_detail_loop add_detail (i + 1) rest
    else
      some { pretty_name := p.pretty_name ++ " (OpenConnect)".toList
             description := p.description
             add_detail_key := if i ≠ 0 then some OCKey.PROTOCOL else none
             add_detail_val := if i ≠ 0 then some add_detail else none
             flags := 0 }

/-- The function `_vt_impl_get_service_add_detail`; `none` is the `FALSE`
return. `service` is the string `NM_VPN_SERVICE_TYPE_OPENCONNECT`. -/
def _vt_impl_get_service_add_detail (service : Str)
    (priv : OpenconnectEditorPluginPrivate) (service_type add_detail : Str) :
    Option AddDetail :=
  if service_type ≠ service then none
  else add_detail_loop add_detail 0 (catalog priv)

/-! ## The profile fields of the specification -/

/-- The ConnectionProfile of the specification. A string field is `none` when
absent; a boolean field is true when its data item is `"yes"`. -/
structure ConnectionProfile where
  displayName : Option Str
  gateway : Option Str
  caCertPath : Option Str
  protocol : Option Str
  httpProxy : Option Str
  csdEnabled : Bool
  csdWrapperPath : Option Str
  reportedOs : Option Str
  userCertPath : Option Str
  privateKeyPath : Option Str
  pemPassphraseFromFsid : Bool
  preventInvalidCert : Bool
  tokenMode : Option Str
  tokenSecret : Option Str
deriving DecidableEq, Repr

/-- The profile a connection stands for: the id, the data items, and the token
secret of the secret store. -/
def profile (connection : NMConnection) : ConnectionProfile :=
  let s_vpn := connection.s_vpn
  { displayName := connection.id
    gateway := nm_setting_vpn_get_data_item s_vpn .GATEWAY
    caCertPath := nm_setting_vpn_get_data_item s_vpn .CACERT
    protocol := nm_setting_vpn_get_data_item s_vpn .PROTOCOL
    httpProxy := nm_setting_vpn_get_data_item s_vpn .PROXY
    csdEnabled := is_yes (nm_setting_vpn_get_data_item s_vpn .CSD_ENABLE)
    csdWrapperPath := nm_setting_vpn_get_data_item s_vpn .CSD_WRAPPER
    reportedOs := nm_setting_vpn_get_data_item s_vpn .REPORTED_OS
    userCertPath := nm_setting_vpn_get_data_item s_vpn .USERCERT
    privateKeyPath := nm_setting_vpn_get_data_item s_vpn .PRIVKEY
    pemPassphraseFromFsid := is_yes (nm_setting_vpn_get_data_item s_vpn .PEM_PASSPHRASE_FSID)
    preventInvalidCert := is_yes (nm_setting_vpn_get_data_item s_vpn .PREVENT_INVALID_CERT)
    tokenMode := nm_setting_vpn_get_data_item s_vpn .TOKEN_MODE
    tokenSecret := nm_setting_vpn_get_secret s_vpn .TOKEN_SECRET }

/-- The lines of a text: the pieces its line feeds end, and a last piece
without line feed when it is not empty. -/
def text_lines : Str → Str → List Str
  | line, [] => if line.isEmpty then [] else [line]
  | line, c :: text =>
    if c == '\n' then line :: text_lines [] text
    else text_lines (line ++ [c]) text

/-! ## Observations and sample inputs -/

/-- The value `export` writes behind `key=`; `none` when nothing is written
for that key. -/
def exported_value (connection : NMConnection) (key : Str) : Option Str :=
  match non_empty (nm_setting_vpn_get_data_item connection.s_vpn .GATEWAY) with
  | none => none
  | some gateway => ((export_arguments connection gateway).lookup key).map fprintf_s

/-- The string `NM_VPN_SERVICE_TYPE_OPENCONNECT` used in the sample runs. -/
def sample_service : Str := "org.freedesktop.NetworkManager.openconnect".toList

/-- A connection without gateway item. -/
def c3_no_gateway : NMConnection :=
  { id := some "Work VPN".toList, s_vpn := ⟨none, [(.PROTOCOL, "nc".toList)], []⟩, s_ip4 := true }

/-- A connection with a gateway item only. -/
def c3_gateway : NMConnection :=
  { id := some "Work VPN".toList
    s_vpn := ⟨none, [(.GATEWAY, "vpn.example.com".toList)], []⟩, s_ip4 := true }

/-- A connection whose id is unset. -/
def c4_no_id : NMConnection :=
  { id := none, s_vpn := ⟨none, [(.GATEWAY, "vpn.example.com".toList)], []⟩, s_ip4 := true }

/-- The private data after `notify_plugin_info_set` with a library of API 5.2
to 5.4: the fallback catalog `anyconnect`, `nc`. -/
def fallback_priv : OpenconnectEditorPluginPrivate := notify_plugin_info_set true

/-- The answer of the add-detail lookup for the catalog entry `p` found at
index `i`. -/
def add_detail_answer (add_detail : Str) (i : Nat) (p : oc_vpn_proto) : AddDetail :=
  { pretty_name := p.pretty_name ++ " (OpenConnect)".toList
    description := p.description
    add_detail_key := if i = 0 then none else some OCKey.PROTOCOL
    add_detail_val := if i = 0 then none else some add_detail
    flags := 0 }

/-- A connection with an empty token secret in the secret store and a token
secret among the plain data items. -/
def c9_empty_secret : NMConnection :=
  { id := some "Work VPN".toList
    s_vpn := ⟨none, [(.GATEWAY, "vpn.example.com".toList), (.TOKEN_SECRET, "abc".toList)],
      [(.TOKEN_SECRET, [])]⟩
    s_ip4 := true }

/-- A connection with a token secret in the secret store and another among the
plain data items. -/
def c9_both : NMConnection :=
  { id := some "Work VPN".toList
    s_vpn := ⟨none, [(.GATEWAY, "vpn.example.com".toList), (.TOKEN_SECRET, "abc".toList)],
      [(.TOKEN_SECRET, "xyz".toList)]⟩
    s_ip4 := true }

/-- The profile file of a sample import. -/
def c2_file : Str :=
  "[openconnect]\nHost=vpn.example.com\nCACert=(null)\nProxy=(null)\nPreventInvalidCert=false\n".toList

/-- A profile file with user certificate and private key. -/
def c6_file : Str :=
  "[openconnect]\nHost=vpn.example.com\nCACert=/etc/ssl/ca.pem\nUserCertificate=(null)\nPrivateKey=/home/u/key.pem\n".toList

/-- A parseable file without Host key. -/
def c2_file_no_host : Str :=
  "[openconnect]\nDescription=Work VPN\nProtocol=nc\n".toList

/-- A parseable file whose `openconnect` section is empty. -/
def c2_file_empty_section : Str :=
  "[openconnect]\n".toList

/-- The key file a sample file loads to. -/
def loaded (data : Str) : GKeyFile :=
  (g_key_file_load_from_file (some data)).getD g_key_file_new

/-- A profile file whose `Host` value holds the escape sequence for a space. -/
def c2_escape_file : Str :=
  "[openconnect]\nHost=vpn\\sexample.com\n".toList

/-- A profile file whose `CACert` value is `(null)` followed by a backslash, and
whose `PrivateKey` value is a path written with backslashes. -/
def c6_escape_file : Str :=
  "[openconnect]\nHost=vpn.example.com\nCACert=(null)\\\nPrivateKey=C:\\certs\\new\\tom.pem\n".toList

/-! ## What the key-file reader makes of the text `export` writes -/

/-- A key as `export` writes it: not empty, without `=`, brackets or white
space, not starting a comment, and not the `Encoding` key. -/
def plain_key (key : Str) : Bool :=
  !key.isEmpty &&
    key.all (fun c => !(c == '=' || c == '[' || c == ']') && !g_ascii_isspace c) &&
    !(key.head? == some '#') && key != "Encoding".toList

/-- The line without one trailing carriage return. -/
def drop_carriage_return (line : Str) : Str :=
  if line.getLast? == some '\r' then line.dropLast else line

/-- The raw value the reader keeps for a value written on one line: one
trailing carriage return and the leading white space are gone. -/
def stored_value (written : Str) : Str :=
  (drop_carriage_return written).dropWhile g_ascii_isspace

/-- The key file after the reader has stored the written key lines, one after
the other, in the group `group`. -/
def store_lines (key_file : GKeyFile) (group : Str) : List (Str × Option Str) → GKeyFile
  | [] => key_file
  | (key, arg) :: rest =>
    store_lines (g_key_file_add_key_value_pair key_file group key (stored_value (fprintf_s arg)))
      group rest

/-- The pair list of a group after the written key lines are stored on top of
`pairs`. -/
def stored_pairs : List (Str × Option Str) → List (Str × Str) → List (Str × Str)
  | [], pairs => pairs
  | (key, arg) :: rest, pairs =>
    stored_pairs rest ((key, stored_value (fprintf_s arg)) :: pairs)

/-- The key file right after the header line `[openconnect]`. -/
def header_key_file : GKeyFile :=
  { groups := [(section_name, [])], start_group := some section_name,
    current_group := some section_name }
/-- The fourteen keys of the profile file in the order `export` writes them. -/
def export_keys : List Str :=
  [ "Description".toList, "Host".toList, "CACert".toList, "Protocol".toList,
    "Proxy".toList, "CSDEnable".toList, "CSDWrapper".toList, "ReportedOS".toList,
    "UserCertificate".toList, "PrivateKey".toList, "FSID".toList,
    "PreventInvalidCert".toList, "StokenSource".toList, "StokenString".toList ]

/-- The value holds an escape sequence of the key-file format: a backslash
followed by `s`, `n`, `t`, `r` or a backslash, or a backslash at its end. A
backslash in front of any other character is no escape sequence, and scanning
goes on behind that character. -/
def has_escape : Str → Bool
  | [] => false
  | [c] => c == '\\'
  | c :: e :: p =>
    if c == '\\' then
      (e == 's' || e == 'n' || e == 't' || e == 'r' || e == '\\') || has_escape p
    else has_escape (e :: p)

/-- A value that reads back as it was written: without line feed and escape
sequence, not starting with white space and not ending in a carriage return. -/
def reads_back (v : Str) : Bool :=
  !v.contains '\n' && !has_escape v &&
    !(match v.head? with
      | some c => g_ascii_isspace c
      | none => false) &&
    !(v.getLast? == some '\r')

/-- A populated field whose value reads back as written. -/
def field_reads_back (field : Option Str) : Bool :=
  match field with
  | some v => reads_back v
  | none => false

/-- A field that is present and not empty. -/
def non_empty_field (field : Option Str) : Bool :=
  match field with
  | some v => !v.isEmpty
  | none => false

/-- Every string field of the profile is populated, none is the sentinel
`(null)`, and the gateway is not empty. -/
def all_populated (p : ConnectionProfile) : Bool :=
  ([p.displayName, p.gateway, p.caCertPath, p.protocol, p.httpProxy, p.csdWrapperPath,
    p.reportedOs, p.userCertPath, p.privateKeyPath, p.tokenMode, p.tokenSecret].all
    fun field => field.isSome && field != some "(null)".toList) &&
  non_empty_field p.gateway

/-- A fully populated connection whose display name holds a backslash. -/
def c1_backslash : NMConnection :=
  { id := some "corp\\site".toList
    s_vpn :=
      { service_type := some sample_service
        data :=
          [ (.GATEWAY, "vpn.example.com".toList), (.CACERT, "/etc/ssl/ca.pem".toList),
            (.PROTOCOL, "nc".toList), (.PROXY, "http://proxy:8080".toList),
            (.CSD_ENABLE, "yes".toList), (.CSD_WRAPPER, "/usr/bin/csd.sh".toList),
            (.REPORTED_OS, "linux".toList), (.USERCERT, "/home/u/cert.pem".toList),
            (.PRIVKEY, "/home/u/key.pem".toList), (.PEM_PASSPHRASE_FSID, "yes".toList),
            (.PREVENT_INVALID_CERT, "no".toList), (.TOKEN_MODE, "totp".toList) ]
        secrets := [(.TOKEN_SECRET, "base32:JBSWY3DP".toList)] }
    s_ip4 := true }

/-- The same connection with a plain display name. -/
def c1_plain : NMConnection := { c1_backslash with id := some "Work VPN".toList }

/-- A connection without protocol whose proxy item holds a line feed. -/
def c10_two_lines : NMConnection :=
  { id := some "Work VPN".toList
    s_vpn := ⟨none, [(.GATEWAY, "vpn.example.com".toList),
      (.PROXY, "http://proxy:8080\nProtocol=nc".toList)], []⟩
    s_ip4 := true }

/-- A connection without protocol. -/
def c10_plain : NMConnection :=
  { id := some "Work VPN".toList
    s_vpn := ⟨none, [(.GATEWAY, "vpn.example.com".toList),
      (.PROXY, "http://proxy:8080".toList)], []⟩
    s_ip4 := true }

/-- Every string field of the profile is populated with a value that reads back
as written, none is the sentinel `(null)`, and gateway, protocol and token
secret are not empty. -/
def all_read_back (p : ConnectionProfile) : Bool :=
  ([p.displayName, p.gateway, p.caCertPath, p.protocol, p.httpProxy, p.csdWrapperPath,
    p.reportedOs, p.userCertPath, p.privateKeyPath, p.tokenMode, p.tokenSecret].all
    fun field => field_reads_back field && field != some "(null)".toList) &&
  non_empty_field p.gateway && non_empty_field p.protocol && non_empty_field p.tokenSecret
/-- The connection of `c1_plain` with a line feed in the display name. -/
def c1_line_feed : NMConnection := { c1_backslash with id := some "Work\nVPN".toList }

/-- The connection of `c1_plain` with a blank before the display name. -/
def c1_leading_blank : NMConnection := { c1_backslash with id := some " Work VPN".toList }

/-- The connection of `c1_plain` with a carriage return after the display name. -/
def c1_carriage_return : NMConnection := { c1_backslash with id := some "Work VPN\r".toList }

/-- The connection of `c1_plain` with an empty protocol item. -/
def c1_empty_protocol : NMConnection :=
  { c1_plain with
    s_vpn := { c1_plain.s_vpn with
      data := strdict_insert c1_plain.s_vpn.data .PROTOCOL [] } }

/-- The connection of `c1_plain` with an empty token secret in the secret store
and a token secret among the plain data items. -/
def c1_empty_secret : NMConnection :=
  { c1_plain with
    s_vpn := { c1_plain.s_vpn with
      data := strdict_insert c1_plain.s_vpn.data .TOKEN_SECRET "abc".toList
      secrets := [(.TOKEN_SECRET, [])] } }

/-- A connection whose display name holds a line feed. -/
def c5_two_lines : NMConnection :=
  { id := some "Work\nVPN".toList
    s_vpn := ⟨none, [(.GATEWAY, "vpn.example.com".toList)], []⟩
    s_ip4 := true }

/-- The line `key=value`. -/
def key_line (key value : Str) : Str := key ++ '=' :: value

deriving instance DecidableEq for Except

/-- The pairs with the values of the key `key` blanked out. -/
def pairs_without_value (key : Str) (pairs : List (Str × Str)) : List (Str × Str) :=
  pairs.map fun p => (p.1, if p.1 = key then [] else p.2)

/-- The key file with the values of the key `key` blanked out in every group. -/
def without_value (key : Str) (key_file : GKeyFile) : GKeyFile :=
  { key_file with
    groups := key_file.groups.map fun g => (g.1, pairs_without_value key g.2) }

/-- The line the parse buffer holds at a line feed, parsed. -/
def parse_buffer_line (key_file : GKeyFile) (parse_buffer : Str) : Option GKeyFile :=
  if (drop_carriage_return parse_buffer).isEmpty then some key_file
  else g_key_file_parse_line key_file (drop_carriage_return parse_buffer)

/-- A connection without gateway item. -/
def c12_no_gateway : NMConnection :=
  { id := some "Work VPN".toList, s_vpn := ⟨none, [(.PROTOCOL, "nc".toList)], []⟩, s_ip4 := true }

/-- A connection with a gateway item. -/
def c12_gateway : NMConnection :=
  { id := some "Work VPN".toList
    s_vpn := ⟨none, [(.GATEWAY, "vpn.example.com".toList)], []⟩, s_ip4 := true }

/-! # Properties of the plugin -/

set_option maxRecDepth 100000

/-! ## Strings, tables and settings -/

theorem non_empty_eq_some {value : Option Str} {g : Str}
    (h : value = some g) (hg : g ≠ []) : non_empty value = some g := by
  subst h
  cases g with
  | nil => exact absurd rfl hg
  | cons a l => simp [non_empty]

theorem non_empty_eq_none {value : Option Str}
    (h : value = none ∨ value = some []) : non_empty value = none := by
  rcases h with h | h <;> subst h <;> simp [non_empty]

theorem non_empty_eq {value : Option Str} {v : Str} (h : non_empty value = some v) :
    value = some v ∧ v ≠ [] := by
  cases value with
  | none => simp [non_empty] at h
  | some w =>
    cases w with
    | nil => simp [non_empty] at h
    | cons a l =>
      simp [non_empty] at h
      subst h
      exact ⟨rfl, by simp⟩

theorem non_empty_some {v : Str} (hv : v ≠ []) : non_empty (some v) = some v :=
  non_empty_eq_some rfl hv

theorem lookup_strdict_insert (d : List (OCKey × Str)) (k k' : OCKey) (v : Str) :
    (strdict_insert d k' v).lookup k = if k = k' then some v else d.lookup k := by
  unfold strdict_insert
  by_cases h : k = k'
  · subst h; simp [List.lookup]
  · have hne : (k == k') = false := by simpa using h
    simp only [List.lookup, hne, if_neg h]
    induction d with
    | nil => simp
    | cons e d ih =>
      obtain ⟨a, b⟩ := e
      by_cases ha : a = k'
      · subst ha
        have : (k == a) = false := hne
        simp [List.filter, List.lookup, this, ih]
      · have h1 : (a != k') = true := by simpa using ha
        simp only [List.filter, h1, List.lookup]
        cases hk : (k == a) <;> simp [ih]

theorem get_data_item_add (s_vpn : NMSettingVpn) (k k' : OCKey) (v : Str) :
    nm_setting_vpn_get_data_item (nm_setting_vpn_add_data_item s_vpn k' v) k =
      if k = k' then some v else nm_setting_vpn_get_data_item s_vpn k := by
  simp [nm_setting_vpn_get_data_item, nm_setting_vpn_add_data_item, lookup_strdict_insert]

theorem get_data_item_add_secret (s_vpn : NMSettingVpn) (k k' : OCKey) (v : Str) :
    nm_setting_vpn_get_data_item (nm_setting_vpn_add_secret s_vpn k' v) k =
      nm_setting_vpn_get_data_item s_vpn k := by
  simp [nm_setting_vpn_get_data_item, nm_setting_vpn_add_secret]

theorem get_secret_add_secret (s_vpn : NMSettingVpn) (k k' : OCKey) (v : Str) :
    nm_setting_vpn_get_secret (nm_setting_vpn_add_secret s_vpn k' v) k =
      if k = k' then some v else nm_setting_vpn_get_secret s_vpn k := by
  simp [nm_setting_vpn_get_secret, nm_setting_vpn_add_secret, lookup_strdict_insert]

theorem get_secret_add_data_item (s_vpn : NMSettingVpn) (k k' : OCKey) (v : Str) :
    nm_setting_vpn_get_secret (nm_setting_vpn_add_data_item s_vpn k' v) k =
      nm_setting_vpn_get_secret s_vpn k := by
  simp [nm_setting_vpn_get_secret, nm_setting_vpn_add_data_item]

theorem get_data_item_add_if (s_vpn : NMSettingVpn) (k k' : OCKey) (buf : Option Str) :
    nm_setting_vpn_get_data_item (add_data_item_if s_vpn k' buf) k =
      if k = k' ∧ buf.isSome then buf else nm_setting_vpn_get_data_item s_vpn k := by
  cases buf with
  | none => simp [add_data_item_if]
  | some b => simp [add_data_item_if, get_data_item_add]

theorem get_data_item_add_unless_null (s_vpn : NMSettingVpn) (k k' : OCKey)
    (buf : Option Str) :
    nm_setting_vpn_get_data_item (add_data_item_unless_null s_vpn k' buf) k =
      if k = k' ∧ buf.isSome ∧ buf ≠ some "(null)".toList then buf
      else nm_setting_vpn_get_data_item s_vpn k := by
  cases buf with
  | none => simp [add_data_item_unless_null]
  | some b =>
    by_cases hb : b = "(null)".toList
    · subst hb
      simp [add_data_item_unless_null]
    · have hb' : ¬ some b = some "(null)".toList := fun e => hb (Option.some.inj e)
      simp only [add_data_item_unless_null, ne_eq, hb, not_false_eq_true, if_true,
        get_data_item_add, Option.isSome_some, hb', true_and, and_true]

theorem get_data_item_add_yes_if (s_vpn : NMSettingVpn) (k k' : OCKey) (bval : Bool) :
    nm_setting_vpn_get_data_item (add_yes_if s_vpn k' bval) k =
      if k = k' ∧ bval = true then some "yes".toList
      else nm_setting_vpn_get_data_item s_vpn k := by
  cases bval <;> simp [add_yes_if, get_data_item_add]

theorem get_secret_add_if (s_vpn : NMSettingVpn) (k k' : OCKey) (buf : Option Str) :
    nm_setting_vpn_get_secret (add_data_item_if s_vpn k' buf) k =
      nm_setting_vpn_get_secret s_vpn k := by
  cases buf <;> simp [add_data_item_if, get_secret_add_data_item]

theorem get_secret_add_unless_null (s_vpn : NMSettingVpn) (k k' : OCKey)
    (buf : Option Str) :
    nm_setting_vpn_get_secret (add_data_item_unless_null s_vpn k' buf) k =
      nm_setting_vpn_get_secret s_vpn k := by
  cases buf with
  | none => simp [add_data_item_unless_null]
  | some b =>
    by_cases hb : b = "(null)".toList
    · subst hb
      simp [add_data_item_unless_null]
    · simp only [add_data_item_unless_null, ne_eq, hb, not_false_eq_true, if_true,
        get_secret_add_data_item]

theorem get_secret_add_yes_if (s_vpn : NMSettingVpn) (k k' : OCKey) (bval : Bool) :
    nm_setting_vpn_get_secret (add_yes_if s_vpn k' bval) k =
      nm_setting_vpn_get_secret s_vpn k := by
  cases bval <;> simp [add_yes_if, get_secret_add_data_item]

theorem get_data_item_add_secret_if (s_vpn : NMSettingVpn) (k k' : OCKey)
    (buf : Option Str) :
    nm_setting_vpn_get_data_item (add_secret_if s_vpn k' buf) k =
      nm_setting_vpn_get_data_item s_vpn k := by
  cases buf <;> simp [add_secret_if, get_data_item_add_secret]

theorem get_secret_add_secret_if (s_vpn : NMSettingVpn) (k k' : OCKey)
    (buf : Option Str) :
    nm_setting_vpn_get_secret (add_secret_if s_vpn k' buf) k =
      if k = k' ∧ buf.isSome then buf else nm_setting_vpn_get_secret s_vpn k := by
  cases buf with
  | none => simp [add_secret_if]
  | some b => simp [add_secret_if, get_secret_add_secret]

theorem get_secret_new (service : Option Str) (k : OCKey) :
    nm_setting_vpn_get_secret { nm_setting_vpn_new with service_type := service } k = none := by
  simp [nm_setting_vpn_get_secret, nm_setting_vpn_new]

theorem get_data_item_new (service : Option Str) (k : OCKey) :
    nm_setting_vpn_get_data_item { nm_setting_vpn_new with service_type := service } k = none := by
  simp [nm_setting_vpn_get_data_item, nm_setting_vpn_new]

theorem is_yes_if (b : Bool) :
    is_yes (if b = true then some "yes".toList else none) = b := by
  cases b <;> simp [is_yes]

theorem is_yes_yes : is_yes (some "yes".toList) = true := by decide

theorem ite_isSome_self (b : Option Str) (c : Option Str) (hc : c = none) :
    (if b.isSome = true then b else c) = b := by
  cases b <;> simp [hc]

theorem sentinel_ite (b n : Option Str) :
    (if b.isSome = true ∧ b ≠ n then b else none) = if b = n then none else b := by
  cases b with
  | none => simp
  | some v => by_cases h : some v = n <;> simp [h]

/-! ## Values of the key file -/

/-- A key that is present has a string value: the decoded raw value. -/
theorem get_string_of_get_value {keyfile : GKeyFile} {group_name key raw : Str}
    (h : g_key_file_get_value keyfile group_name key = some raw) :
    g_key_file_get_string keyfile group_name key =
      some (g_key_file_parse_value_as_string raw) := by
  simp [g_key_file_get_string, h]

theorem get_string_of_no_value {keyfile : GKeyFile} {group_name key : Str}
    (h : g_key_file_get_value keyfile group_name key = none) :
    g_key_file_get_string keyfile group_name key = none := by
  simp [g_key_file_get_string, h]

theorem parse_value_as_string_plain (n : Nat) (v : Str) (hn : v.length ≤ n)
    (h : has_escape v = false) : g_key_file_parse_value_as_string v = v := by
  induction n generalizing v with
  | zero =>
    have : v = [] := List.length_eq_zero.1 (Nat.le_zero.1 hn)
    subst this; rfl
  | succ n ih =>
    match v, hn, h with
    | [], _, _ => rfl
    | [c], _, h =>
      have hc : (c == '\\') = false := by simpa [has_escape] using h
      simp [g_key_file_parse_value_as_string, hc]
    | c :: e :: p, hn, h =>
      rw [g_key_file_parse_value_as_string]
      rw [has_escape] at h
      cases hc : (c == '\\') with
      | true =>
        simp only [hc, if_true, Bool.or_eq_false_iff] at h
        obtain ⟨⟨⟨⟨⟨hs, hnn⟩, ht⟩, hr⟩, hb⟩, hp⟩ := h
        have hcc : c = '\\' := by simpa using hc
        have hlen : p.length ≤ n := by
          simp only [List.length_cons] at hn; omega
        simp only [if_true, hs, hnn, ht, hr, hb, Bool.false_eq_true, if_false, ih p hlen hp, hcc,
          List.cons_append, List.nil_append]
      | false =>
        simp only [hc, Bool.false_eq_true, if_false] at h
        have hlen : (e :: p).length ≤ n := by
          simp only [List.length_cons] at hn ⊢; omega
        simp only [Bool.false_eq_true, if_false, ih (e :: p) hlen h]

/-- The string value of a key is its raw value with the escape sequences
decoded, and equal to the raw value when that holds no escape sequence. -/
theorem get_string_decodes {keyfile : GKeyFile} {group_name key raw v : Str}
    (hraw : g_key_file_get_value keyfile group_name key = some raw)
    (hv : g_key_file_get_string keyfile group_name key = some v) :
    v = g_key_file_parse_value_as_string raw ∧ (has_escape raw = false → v = raw) := by
  rw [get_string_of_get_value hraw] at hv
  have e : v = g_key_file_parse_value_as_string raw := (Option.some.inj hv).symm
  exact ⟨e, fun h => e.trans (parse_value_as_string_plain raw.length raw (Nat.le_refl _) h)⟩

theorem one_or_zero_reads (b : Bool) :
    g_key_file_parse_value_as_boolean (stored_value (one_or_zero b)) = b ∧
      '\n' ∉ one_or_zero b := by
  cases b <;> decide

theorem is_yes_one_or_zero (value : Option Str) :
    g_key_file_parse_value_as_boolean (stored_value (one_or_zero (is_yes value))) =
      is_yes value :=
  (one_or_zero_reads _).1

/-! ## The imported profile -/

/-- The profile of an imported connection, field by field, in terms of the
string and boolean values of the key file. -/
theorem profile_import_settings (service : Str) (keyfile : GKeyFile) (host : Str) :
    profile (import_settings service keyfile host) =
      { displayName := g_key_file_get_string keyfile section_name "Description".toList
        gateway := some host
        caCertPath :=
          if g_key_file_get_string keyfile section_name "CACert".toList = some "(null)".toList
          then none else g_key_file_get_string keyfile section_name "CACert".toList
        protocol := g_key_file_get_string keyfile section_name "Protocol".toList
        httpProxy := g_key_file_get_string keyfile section_name "Proxy".toList
        csdEnabled := g_key_file_get_boolean keyfile section_name "CSDEnable".toList
        csdWrapperPath := g_key_file_get_string keyfile section_name "CSDWrapper".toList
        reportedOs := g_key_file_get_string keyfile section_name "ReportedOS".toList
        userCertPath :=
          if g_key_file_get_string keyfile section_name "UserCertificate".toList =
            some "(null)".toList
          then none else g_key_file_get_string keyfile section_name "UserCertificate".toList
        privateKeyPath :=
          if g_key_file_get_string keyfile section_name "PrivateKey".toList =
            some "(null)".toList
          then none else g_key_file_get_string keyfile section_name "PrivateKey".toList
        pemPassphraseFromFsid := g_key_file_get_boolean keyfile section_name "FSID".toList
        preventInvalidCert := true
        tokenMode := g_key_file_get_string keyfile section_name "StokenSource".toList
        tokenSecret := g_key_file_get_string keyfile section_name "StokenString".toList } := by
  simp only [profile, import_settings, get_data_item_add_if, get_data_item_add_unless_null,
    get_data_item_add_yes_if, get_data_item_add, get_data_item_add_secret_if,
    get_secret_add_if, get_secret_add_unless_null, get_secret_add_yes_if,
    get_secret_add_data_item, get_secret_add_secret_if, get_data_item_new, get_secret_new,
    reduceCtorEq, false_and, true_and, if_false, if_true, is_yes_if, ite_isSome_self, sentinel_ite, is_yes_yes]

theorem import_settings_congr (service : Str) (keyfile₁ keyfile₂ : GKeyFile) (host : Str)
    (hsame : ∀ key, key ≠ "PreventInvalidCert".toList →
      g_key_file_get_value keyfile₁ section_name key =
        g_key_file_get_value keyfile₂ section_name key) :
    import_settings service keyfile₁ host = import_settings service keyfile₂ host := by
  have hs : ∀ key, key ≠ "PreventInvalidCert".toList →
      g_key_file_get_string keyfile₁ section_name key =
        g_key_file_get_string keyfile₂ section_name key := by
    intro key hk; simp only [g_key_file_get_string, hsame key hk]
  have hb : ∀ key, key ≠ "PreventInvalidCert".toList →
      g_key_file_get_boolean keyfile₁ section_name key =
        g_key_file_get_boolean keyfile₂ section_name key := by
    intro key hk; simp only [g_key_file_get_boolean, hsame key hk]
  simp only [import_settings, hs "Description".toList (by decide),
    hs "CACert".toList (by decide), hs "Protocol".toList (by decide),
    hs "Proxy".toList (by decide), hb "CSDEnable".toList (by decide),
    hs "CSDWrapper".toList (by decide), hs "ReportedOS".toList (by decide),
    hs "UserCertificate".toList (by decide), hs "PrivateKey".toList (by decide),
    hb "FSID".toList (by decide), hs "StokenSource".toList (by decide),
    hs "StokenString".toList (by decide)]

/-- Two loaded key files that agree on the values of every key of the section
other than `PreventInvalidCert` are imported to the same result. -/
theorem import_congr_values (service : Str) (contents₁ contents₂ : Option Str)
    (keyfile₁ keyfile₂ : GKeyFile)
    (hload₁ : g_key_file_load_from_file contents₁ = some keyfile₁)
    (hload₂ : g_key_file_load_from_file contents₂ = some keyfile₂)
    (hsame : ∀ key, key ≠ "PreventInvalidCert".toList →
      g_key_file_get_value keyfile₁ section_name key =
        g_key_file_get_value keyfile₂ section_name key) :
    import_ service contents₁ = import_ service contents₂ := by
  have hhost : g_key_file_get_string keyfile₁ section_name "Host".toList =
      g_key_file_get_string keyfile₂ section_name "Host".toList := by
    simp only [g_key_file_get_string, hsame "Host".toList (by decide)]
  simp only [import_, hload₁, hload₂, hhost]
  cases g_key_file_get_string keyfile₂ section_name "Host".toList with
  | none => rfl
  | some host => simp only [import_settings_congr service keyfile₁ keyfile₂ host hsame]

/-! ## The reader on single lines -/

theorem takeWhile_append_stop (p : Char → Bool) (k : Str) (x : Char) (r : Str)
    (hk : ∀ c ∈ k, p c = true) (hx : p x = false) :
    (k ++ x :: r).takeWhile p = k := by
  induction k with
  | nil => simp [List.takeWhile, hx]
  | cons a k ih =>
    have ha : p a = true := hk a (List.mem_cons_self _ _)
    rw [List.cons_append, List.takeWhile_cons_of_pos ha,
      ih (fun c hc => hk c (List.mem_cons_of_mem _ hc))]

theorem dropWhile_append_stop (p : Char → Bool) (k : Str) (x : Char) (r : Str)
    (hk : ∀ c ∈ k, p c = true) (hx : p x = false) :
    (k ++ x :: r).dropWhile p = x :: r := by
  induction k with
  | nil => simp [List.dropWhile, hx]
  | cons a k ih =>
    have ha : p a = true := hk a (List.mem_cons_self _ _)
    rw [List.cons_append, List.dropWhile_cons_of_pos ha,
      ih (fun c hc => hk c (List.mem_cons_of_mem _ hc))]

theorem takeWhile_all (p : Char → Bool) (k : Str) (hk : ∀ c ∈ k, p c = true) :
    k.takeWhile p = k := by
  induction k with
  | nil => rfl
  | cons a k ih =>
    have ha : p a = true := hk a (List.mem_cons_self _ _)
    rw [List.takeWhile_cons_of_pos ha, ih (fun c hc => hk c (List.mem_cons_of_mem _ hc))]

theorem dropWhile_all (p : Char → Bool) (k : Str) (hk : ∀ c ∈ k, p c = true) :
    k.dropWhile p = [] := by
  induction k with
  | nil => rfl
  | cons a k ih =>
    have ha : p a = true := hk a (List.mem_cons_self _ _)
    rw [List.dropWhile_cons_of_pos ha, ih (fun c hc => hk c (List.mem_cons_of_mem _ hc))]

theorem dropWhile_head_stop (p : Char → Bool) (k : Str)
    (hk : ∀ c, k.head? = some c → p c = false) : k.dropWhile p = k := by
  cases k with
  | nil => rfl
  | cons a k => simp [List.dropWhile, hk a rfl]

theorem reverse_dropWhile_reverse (p : Char → Bool) (k : Str)
    (hk : ∀ c, k.getLast? = some c → p c = false) :
    (k.reverse.dropWhile p).reverse = k := by
  rw [dropWhile_head_stop p k.reverse (by simpa [List.head?_reverse] using hk)]
  exact List.reverse_reverse k

theorem getLast?_mem {k : Str} {c : Char} (h : k.getLast? = some c) : c ∈ k :=
  List.mem_of_getLast?_eq_some h

theorem head?_mem {k : Str} {c : Char} (h : k.head? = some c) : c ∈ k := by
  cases k with
  | nil => simp at h
  | cons a k => simp at h; simp [h]

theorem isspace_false_ne {c : Char} (h : g_ascii_isspace c = false) :
    c ≠ ' ' ∧ c ≠ '\n' ∧ c ≠ '\r' := by
  simp only [g_ascii_isspace, Bool.or_eq_false_iff, beq_eq_false_iff_ne] at h
  exact ⟨h.1.1.1.1, h.1.1.2, h.2⟩

/-- The facts `plain_key` packs. -/
theorem plain_key_spec {key : Str} (h : plain_key key = true) :
    key ≠ [] ∧ (∀ c ∈ key, c ≠ '=' ∧ c ≠ '[' ∧ c ≠ ']' ∧ g_ascii_isspace c = false) ∧
      key.head? ≠ some '#' ∧ key ≠ "Encoding".toList := by
  simp only [plain_key, Bool.and_eq_true, Bool.not_eq_true', List.all_eq_true,
    Bool.or_eq_false_iff, beq_eq_false_iff_ne, bne_iff_ne, ne_eq, List.isEmpty_eq_false] at h
  obtain ⟨⟨⟨h1, h2⟩, h3⟩, h4⟩ := h
  refine ⟨?_, ?_, h3, h4⟩
  · intro e; subst e; simp at h1
  · intro c hc
    obtain ⟨⟨⟨a, b⟩, d⟩, e⟩ := h2 c hc
    exact ⟨a, b, d, e⟩

theorem is_key_name_plain {key : Str} (hkey : plain_key key = true) :
    g_key_file_is_key_name key = true := by
  obtain ⟨hne, hall, -, -⟩ := plain_key_spec hkey
  have hstop : ∀ c ∈ key, (!(c == '=' || c == '[' || c == ']')) = true := by
    intro c hc
    obtain ⟨h1, h2, h3, -⟩ := hall c hc
    simp [h1, h2, h3]
  have hhead : ¬ key.head? = some ' ' := by
    intro h
    exact (isspace_false_ne (hall ' ' (head?_mem h)).2.2.2).1 rfl
  have hlast : ¬ key.getLast? = some ' ' := by
    intro h
    exact (isspace_false_ne (hall ' ' (getLast?_mem h)).2.2.2).1 rfl
  have hemp : key.isEmpty = false := by
    cases key with
    | nil => exact absurd rfl hne
    | cons a k => rfl
  have hh : (key.head? == some ' ') = false := by simpa using hhead
  have hl : (key.getLast? == some ' ') = false := by simpa using hlast
  simp only [g_key_file_is_key_name, takeWhile_all _ key hstop, dropWhile_all _ key hstop,
    hemp, Bool.false_eq_true, if_false, hh, hl, Bool.or_self]

/-- A line `key=value` with a plain key, read inside a group, stores the pair
of the key and the value without its leading white space. -/
theorem parse_key_line (kf : GKeyFile) (g key value : Str) (hkey : plain_key key = true)
    (hcur : kf.current_group = some g) :
    g_key_file_parse_line kf (key ++ '=' :: value) =
      some (g_key_file_add_key_value_pair kf g key (value.dropWhile g_ascii_isspace)) := by
  obtain ⟨hne, hall, hhash, henc⟩ := plain_key_spec hkey
  have hname := is_key_name_plain hkey
  obtain ⟨a, k, rfl⟩ : ∃ a k, key = a :: k := by
    cases key with
    | nil => exact absurd rfl hne
    | cons a k => exact ⟨a, k, rfl⟩
  obtain ⟨ha1, ha2, ha3, ha4⟩ := hall a (List.mem_cons_self _ _)
  have hahash : a ≠ '#' := fun e => hhash (by simp [e])
  have hanl : a ≠ '\n' := (isspace_false_ne ha4).2.1
  have hstart : ((a :: k) ++ '=' :: value).dropWhile g_ascii_isspace =
      (a :: k) ++ '=' :: value := by
    rw [List.cons_append, List.dropWhile_cons_of_neg (by simp [ha4])]
  have hcomment : g_key_file_line_is_comment ((a :: k) ++ '=' :: value) = false := by
    simp [g_key_file_line_is_comment, hahash, hanl]
  have hgroup : g_key_file_line_is_group ((a :: k) ++ '=' :: value) = false := by
    simp [g_key_file_line_is_group, ha2]
  have hkv : g_key_file_line_is_key_value_pair ((a :: k) ++ '=' :: value) = true := by
    simp [g_key_file_line_is_key_value_pair, ha1]
  have hne_eq : ∀ c ∈ a :: k, (c != '=') = true := by
    intro c hc
    simp [(hall c hc).1]
  have htake : ((a :: k) ++ '=' :: value).takeWhile (fun c => c != '=') = a :: k :=
    takeWhile_append_stop _ _ _ _ hne_eq (by simp)
  have hdrop : ((a :: k) ++ '=' :: value).dropWhile (fun c => c != '=') = '=' :: value :=
    dropWhile_append_stop _ _ _ _ hne_eq (by simp)
  have hchomp : ((a :: k).reverse.dropWhile g_ascii_isspace).reverse = a :: k :=
    reverse_dropWhile_reverse _ _ (fun c hc => (hall c (getLast?_mem hc)).2.2.2)
  rw [g_key_file_parse_line]
  simp only [hstart, hcomment, hgroup, hkv, Bool.false_eq_true, if_false, if_true]
  rw [g_key_file_parse_key_value_pair]
  simp only [hcur, htake, hdrop, hchomp, hname, Bool.not_true, Bool.false_eq_true, if_false,
    henc, false_and, and_false, List.drop_succ_cons, List.drop_zero]

/-- A line `key=value` with a plain key outside any group is a parse error. -/
theorem parse_key_line_no_group (kf : GKeyFile) (key value : Str)
    (hkey : plain_key key = true) (hcur : kf.current_group = none) :
    g_key_file_parse_line kf (key ++ '=' :: value) = none := by
  obtain ⟨hne, hall, hhash, -⟩ := plain_key_spec hkey
  obtain ⟨a, k, rfl⟩ : ∃ a k, key = a :: k := by
    cases key with
    | nil => exact absurd rfl hne
    | cons a k => exact ⟨a, k, rfl⟩
  obtain ⟨ha1, ha2, -, ha4⟩ := hall a (List.mem_cons_self _ _)
  have hahash : a ≠ '#' := fun e => hhash (by simp [e])
  have hanl : a ≠ '\n' := (isspace_false_ne ha4).2.1
  have hstart : ((a :: k) ++ '=' :: value).dropWhile g_ascii_isspace =
      (a :: k) ++ '=' :: value := by
    rw [List.cons_append, List.dropWhile_cons_of_neg (by simp [ha4])]
  have hcomment : g_key_file_line_is_comment ((a :: k) ++ '=' :: value) = false := by
    simp [g_key_file_line_is_comment, hahash, hanl]
  have hgroup : g_key_file_line_is_group ((a :: k) ++ '=' :: value) = false := by
    simp [g_key_file_line_is_group, ha2]
  have hkv : g_key_file_line_is_key_value_pair ((a :: k) ++ '=' :: value) = true := by
    simp [g_key_file_line_is_key_value_pair, ha1]
  rw [g_key_file_parse_line]
  simp only [hstart, hcomment, hgroup, hkv, Bool.false_eq_true, if_false, if_true]
  rw [g_key_file_parse_key_value_pair]
  simp only [hcur]

theorem add_pair_current (kf : GKeyFile) (g key value : Str) :
    (g_key_file_add_key_value_pair kf g key value).current_group = kf.current_group := rfl

theorem drop_carriage_return_append (p value : Str) (hv : value ≠ []) :
    drop_carriage_return (p ++ value) = p ++ drop_carriage_return value := by
  unfold drop_carriage_return
  rw [List.getLast?_append_of_ne_nil _ hv]
  split
  · rw [List.dropLast_append_of_ne_nil _ hv]
  · rfl

theorem drop_carriage_return_key_line (key value : Str) :
    drop_carriage_return (key ++ '=' :: value) = key ++ '=' :: drop_carriage_return value := by
  cases value with
  | nil =>
    have h := drop_carriage_return_append key ['='] (by simp)
    rw [h]
    rfl
  | cons c v =>
    have h := drop_carriage_return_append (key ++ ['=']) (c :: v) (by simp)
    simp only [List.append_assoc, List.singleton_append] at h
    exact h

/-! ## Values that read back as written -/

/-- The facts `reads_back` packs. -/
theorem reads_back_spec {v : Str} (h : reads_back v = true) :
    '\n' ∉ v ∧ stored_value v = v ∧ g_key_file_parse_value_as_string v = v := by
  simp only [reads_back, Bool.and_eq_true, Bool.not_eq_true', List.contains_eq_any_beq,
    List.any_eq_false, beq_iff_eq, beq_eq_false_iff_ne] at h
  obtain ⟨⟨⟨h2, h3⟩, h4⟩, h5⟩ := h
  have hnl : '\n' ∉ v := fun m => h2 '\n' m rfl
  refine ⟨hnl, ?_, parse_value_as_string_plain v.length v (Nat.le_refl _) h3⟩
  have e : drop_carriage_return v = v := by
    unfold drop_carriage_return
    have : (v.getLast? == some '\r') = false := by
      rw [beq_eq_false_iff_ne]; exact h5
    simp [this]
  rw [stored_value, e]
  apply dropWhile_head_stop
  intro c hc
  rw [hc] at h4
  exact h4

theorem field_reads_back_some {field : Option Str} (h : field_reads_back field = true) :
    ∃ v, field = some v ∧ reads_back v = true := by
  cases field with
  | none => simp [field_reads_back] at h
  | some v => exact ⟨v, rfl, h⟩

theorem field_reads_back_spec {field : Option Str}
    (h : (field_reads_back field && field != some "(null)".toList) = true) :
    ∃ v, field = some v ∧ '\n' ∉ v ∧ stored_value v = v ∧
      g_key_file_parse_value_as_string v = v ∧ ¬ some v = some "(null)".toList := by
  rw [Bool.and_eq_true] at h
  obtain ⟨v, hv, hr⟩ := field_reads_back_some h.1
  obtain ⟨h2, h3, h4⟩ := reads_back_spec hr
  refine ⟨v, hv, h2, h3, h4, ?_⟩
  have := h.2
  rw [hv] at this
  simpa using this

theorem non_empty_field_some {v : Str} (h : non_empty_field (some v) = true) : v ≠ [] := by
  intro e
  subst e
  simp [non_empty_field] at h

theorem or_empty_non_empty (v : Str) : or_empty (non_empty (some v)) = v := by
  cases v <;> simp [or_empty, non_empty]

/-! ## The reader on whole texts -/

theorem parse_data_nil (kf : GKeyFile) : g_key_file_parse_data kf [] [] = some kf := by
  simp [g_key_file_parse_data, g_key_file_flush_parse_buffer]

/-- Reading up to the next line feed: the characters before it join the parse
buffer, and the line in the buffer is parsed. -/
theorem parse_data_line (kf : GKeyFile) (buf line rest : Str) (hline : '\n' ∉ line) :
    g_key_file_parse_data kf buf (line ++ '\n' :: rest) =
      match (if (drop_carriage_return (buf ++ line)).isEmpty then some kf
             else g_key_file_parse_line kf (drop_carriage_return (buf ++ line))) with
      | none => none
      | some kf1 => g_key_file_parse_data kf1 [] rest := by
  induction line generalizing buf with
  | nil =>
    simp only [List.nil_append, List.append_nil, g_key_file_parse_data, beq_self_eq_true,
      if_true, drop_carriage_return]
  | cons c line ih =>
    have hc : (c == '\n') = false := by
      rw [beq_eq_false_iff_ne]
      intro e; exact hline (by simp [e])
    have hl : '\n' ∉ line := fun h => hline (List.mem_cons_of_mem _ h)
    rw [List.cons_append, g_key_file_parse_data]
    simp only [hc, Bool.false_eq_true, if_false]
    rw [ih (buf ++ [c]) hl]
    simp only [List.append_assoc, List.singleton_append]

theorem parse_data_cons (kf : GKeyFile) (buf : Str) (c : Char) (data : Str) :
    g_key_file_parse_data kf buf (c :: data) =
      if c = '\n' then
        (parse_buffer_line kf buf).bind fun kf1 => g_key_file_parse_data kf1 [] data
      else g_key_file_parse_data kf (buf ++ [c]) data := by
  rw [g_key_file_parse_data]
  by_cases hc : c = '\n'
  · subst hc
    simp only [beq_self_eq_true, if_true, parse_buffer_line, drop_carriage_return]
    cases (if (if buf.getLast? == some '\r' then buf.dropLast else buf).isEmpty = true
      then some kf
      else g_key_file_parse_line kf (if buf.getLast? == some '\r' then buf.dropLast else buf))
      <;> rfl
  · have : (c == '\n') = false := by simpa using hc
    simp only [this, Bool.false_eq_true, if_false, hc]

theorem parse_data_line_step (kf : GKeyFile) (line rest : Str) (hline : '\n' ∉ line) :
    g_key_file_parse_data kf [] (line ++ '\n' :: rest) =
      (parse_buffer_line kf line).bind fun kf1 => g_key_file_parse_data kf1 [] rest := by
  rw [parse_data_line kf [] line rest hline]
  simp only [List.nil_append, parse_buffer_line]
  cases (if (drop_carriage_return line).isEmpty = true then some kf
    else g_key_file_parse_line kf (drop_carriage_return line)) <;> rfl

/-- Parsing data that end in a line feed, followed by more data, is parsing
the first part and then the rest with an empty parse buffer. -/
theorem parse_data_append (head rest : Str) (kf : GKeyFile) (buf : Str)
    (hhead : head.getLast? = some '\n') :
    g_key_file_parse_data kf buf (head ++ rest) =
      (g_key_file_parse_data kf buf head).bind fun kf1 =>
        g_key_file_parse_data kf1 [] rest := by
  induction head generalizing kf buf with
  | nil => simp at hhead
  | cons c head ih =>
    rw [List.cons_append, parse_data_cons, parse_data_cons]
    cases head with
    | nil =>
      have hc : c = '\n' := by simpa using hhead
      subst hc
      simp only [if_true, List.nil_append]
      cases parse_buffer_line kf buf with
      | none => rfl
      | some kf1 => simp [parse_data_nil]
    | cons d head =>
      have hlast : (d :: head).getLast? = some '\n' := by
        rw [List.getLast?_cons_cons] at hhead
        exact hhead
      split
      · cases parse_buffer_line kf buf with
        | none => rfl
        | some kf1 => simp only [Option.some_bind]; exact ih kf1 [] hlast
      · exact ih kf _ hlast

/-- The reader on the key lines `export` writes: every line with a plain key
and a value free of line feeds is stored in the current group. -/
theorem parse_key_lines (g : Str) (args : List (Str × Option Str)) (kf : GKeyFile)
    (hcur : kf.current_group = some g)
    (hargs : ∀ a ∈ args, plain_key a.1 = true ∧ '\n' ∉ fprintf_s a.2) :
    g_key_file_parse_data kf [] (fprintf_key_lines args) = some (store_lines kf g args) := by
  induction args generalizing kf with
  | nil => simp [fprintf_key_lines, store_lines, parse_data_nil]
  | cons a args ih =>
    obtain ⟨key, arg⟩ := a
    obtain ⟨hkey, hval⟩ := hargs (key, arg) (List.mem_cons_self _ _)
    have hline : '\n' ∉ key ++ '=' :: fprintf_s arg := by
      obtain ⟨-, hall, -, -⟩ := plain_key_spec hkey
      intro h
      rcases List.mem_append.1 h with h | h
      · exact (isspace_false_ne (hall _ h).2.2.2).2.1 rfl
      · rcases List.mem_cons.1 h with h | h
        · exact absurd h (by decide)
        · exact hval h
    have e : fprintf_key_lines ((key, arg) :: args) =
        (key ++ '=' :: fprintf_s arg) ++ '\n' :: fprintf_key_lines args := by
      simp [fprintf_key_lines]
    have hemp : (key ++ '=' :: drop_carriage_return (fprintf_s arg)).isEmpty = false := by
      cases key <;> rfl
    rw [e, parse_data_line kf [] _ _ hline]
    simp only [List.nil_append, drop_carriage_return_key_line, hemp, Bool.false_eq_true,
      if_false, parse_key_line kf g key _ hkey hcur]
    rw [ih _ (by rw [add_pair_current]; exact hcur)
      (fun b hb => hargs b (List.mem_cons_of_mem _ hb))]
    rfl

theorem text_lines_line (buf line rest : Str) (hline : '\n' ∉ line) :
    text_lines buf (line ++ '\n' :: rest) = (buf ++ line) :: text_lines [] rest := by
  induction line generalizing buf with
  | nil => simp [text_lines]
  | cons c line ih =>
    have hc : (c == '\n') = false := by
      rw [beq_eq_false_iff_ne]
      intro e; exact hline (by simp [e])
    have hl : '\n' ∉ line := fun h => hline (List.mem_cons_of_mem _ h)
    rw [List.cons_append, text_lines]
    simp only [hc, Bool.false_eq_true, if_false]
    rw [ih (buf ++ [c]) hl]
    simp only [List.append_assoc, List.singleton_append]

theorem text_lines_key_lines (args : List (Str × Option Str))
    (hargs : ∀ a ∈ args, plain_key a.1 = true ∧ '\n' ∉ fprintf_s a.2) :
    text_lines [] (fprintf_key_lines args) =
      args.map fun a => key_line a.1 (fprintf_s a.2) := by
  induction args with
  | nil => simp [fprintf_key_lines, text_lines]
  | cons a args ih =>
    obtain ⟨key, arg⟩ := a
    obtain ⟨hkey, hval⟩ := hargs (key, arg) (List.mem_cons_self _ _)
    have hline : '\n' ∉ key ++ '=' :: fprintf_s arg := by
      obtain ⟨-, hall, -, -⟩ := plain_key_spec hkey
      intro h
      rcases List.mem_append.1 h with h | h
      · exact (isspace_false_ne (hall _ h).2.2.2).2.1 rfl
      · rcases List.mem_cons.1 h with h | h
        · exact absurd h (by decide)
        · exact hval h
    have e : fprintf_key_lines ((key, arg) :: args) =
        (key ++ '=' :: fprintf_s arg) ++ '\n' :: fprintf_key_lines args := by
      simp [fprintf_key_lines]
    rw [e, text_lines_line [] _ _ hline, ih (fun b hb => hargs b (List.mem_cons_of_mem _ hb))]
    rfl

/-! ## Key files up to the values of one key -/

theorem lookup_map_group (key : Str) (groups : List (Str × List (Str × Str))) (name : Str) :
    (groups.map fun g => (g.1, pairs_without_value key g.2)).lookup name =
      (groups.lookup name).map (pairs_without_value key) := by
  induction groups with
  | nil => rfl
  | cons g groups ih =>
    obtain ⟨n, ps⟩ := g
    simp only [List.map, List.lookup]
    cases name == n <;> simp [ih]

theorem lookup_pairs_without_value (key k : Str) (pairs : List (Str × Str)) :
    (pairs_without_value key pairs).lookup k =
      (pairs.lookup k).map fun v => if k = key then [] else v := by
  induction pairs with
  | nil => rfl
  | cons p pairs ih =>
    obtain ⟨k', v⟩ := p
    by_cases hk : k = k'
    · subst hk
      simp [pairs_without_value, List.lookup]
    · have hk' : (k == k') = false := by simpa using hk
      simp only [pairs_without_value, List.map, List.lookup, hk'] at ih ⊢
      exact ih

theorem get_value_without_value (key : Str) (kf : GKeyFile) (group k : Str) (hk : k ≠ key) :
    g_key_file_get_value (without_value key kf) group k = g_key_file_get_value kf group k := by
  simp only [g_key_file_get_value, g_key_file_lookup_group, without_value, lookup_map_group]
  cases kf.groups.lookup group with
  | none => rfl
  | some pairs =>
    simp only [Option.map_some', lookup_pairs_without_value, hk, if_false]
    cases pairs.lookup k <;> rfl

theorem pairs_without_value_idem (key : Str) (pairs : List (Str × Str)) :
    pairs_without_value key (pairs_without_value key pairs) = pairs_without_value key pairs := by
  simp only [pairs_without_value, List.map_map]
  apply List.map_congr_left
  intro p _
  by_cases h : p.1 = key <;> simp [h]

theorem without_value_idem (key : Str) (kf : GKeyFile) :
    without_value key (without_value key kf) = without_value key kf := by
  simp only [without_value, List.map_map, GKeyFile.mk.injEq, and_true]
  apply List.map_congr_left
  intro g _
  simp [pairs_without_value_idem]

theorem without_value_add_group (key : Str) (kf : GKeyFile) (name : Str) :
    without_value key (g_key_file_add_group kf name) =
      g_key_file_add_group (without_value key kf) name := by
  have h : g_key_file_lookup_group (without_value key kf) name =
      (g_key_file_lookup_group kf name).map (pairs_without_value key) := by
    simp only [g_key_file_lookup_group, without_value, lookup_map_group]
  unfold g_key_file_add_group
  rw [h]
  cases g_key_file_lookup_group kf name with
  | none => simp [without_value, pairs_without_value]
  | some pairs => simp [without_value]

theorem without_value_add_pair (key : Str) (kf : GKeyFile) (group k v : Str) :
    without_value key (g_key_file_add_key_value_pair kf group k v) =
      g_key_file_add_key_value_pair (without_value key kf) group k
        (if k = key then [] else v) := by
  simp only [without_value, g_key_file_add_key_value_pair, List.map_map, GKeyFile.mk.injEq,
    and_true]
  apply List.map_congr_left
  intro g _
  by_cases h : g.1 = group <;> simp [h, pairs_without_value]

theorem without_value_add_pair_masked (key : Str) (kf : GKeyFile) (group k v : Str) :
    without_value key (g_key_file_add_key_value_pair (without_value key kf) group k v) =
      without_value key (g_key_file_add_key_value_pair kf group k v) := by
  rw [without_value_add_pair, without_value_add_pair, without_value_idem]

theorem parse_group_without_value (key : Str) (kf : GKeyFile) (line : Str) :
    (g_key_file_parse_group (without_value key kf) line).map (without_value key) =
      (g_key_file_parse_group kf line).map (without_value key) := by
  simp only [g_key_file_parse_group]
  split
  · simp only [Option.map_some', without_value_add_group, without_value_idem]
  · rfl

theorem parse_pair_without_value (key : Str) (kf : GKeyFile) (line : Str) :
    (g_key_file_parse_key_value_pair (without_value key kf) line).map (without_value key) =
      (g_key_file_parse_key_value_pair kf line).map (without_value key) := by
  have hc : (without_value key kf).current_group = kf.current_group := rfl
  have hs : (without_value key kf).start_group = kf.start_group := rfl
  simp only [g_key_file_parse_key_value_pair, hc, hs]
  cases kf.current_group with
  | none => rfl
  | some current =>
    simp only
    split
    · rfl
    · split
      · rfl
      · simp only [Option.map_some', without_value_add_pair_masked]

theorem parse_line_without_value (key : Str) (kf : GKeyFile) (line : Str) :
    (g_key_file_parse_line (without_value key kf) line).map (without_value key) =
      (g_key_file_parse_line kf line).map (without_value key) := by
  simp only [g_key_file_parse_line]
  split
  · simp only [Option.map_some', without_value_idem]
  · split
    · exact parse_group_without_value key kf _
    · split
      · exact parse_pair_without_value key kf _
      · rfl

theorem parse_buffer_line_without_value (key : Str) (kf : GKeyFile) (buf : Str) :
    (parse_buffer_line (without_value key kf) buf).map (without_value key) =
      (parse_buffer_line kf buf).map (without_value key) := by
  simp only [parse_buffer_line]
  split
  · simp only [Option.map_some', without_value_idem]
  · exact parse_line_without_value key kf _

/-- Two key files that are equal up to the values of `key` stay so while the
same data are parsed into both. -/
theorem parse_data_without_value (key : Str) (data : Str) (kf₁ kf₂ : GKeyFile) (buf : Str)
    (h : without_value key kf₁ = without_value key kf₂) :
    (g_key_file_parse_data kf₁ buf data).map (without_value key) =
      (g_key_file_parse_data kf₂ buf data).map (without_value key) := by
  induction data generalizing kf₁ kf₂ buf with
  | nil =>
    simp only [g_key_file_parse_data, g_key_file_flush_parse_buffer]
    split
    · simp only [Option.map_some', h]
    · rw [← parse_line_without_value key kf₁, ← parse_line_without_value key kf₂, h]
  | cons c data ih =>
    rw [parse_data_cons, parse_data_cons]
    split
    · have hstep : (parse_buffer_line kf₁ buf).map (without_value key) =
          (parse_buffer_line kf₂ buf).map (without_value key) := by
        rw [← parse_buffer_line_without_value key kf₁, ← parse_buffer_line_without_value key kf₂,
          h]
      cases h₁ : parse_buffer_line kf₁ buf with
      | none =>
        rw [h₁] at hstep
        cases h₂ : parse_buffer_line kf₂ buf with
        | none => rfl
        | some b => rw [h₂] at hstep; simp at hstep
      | some a =>
        rw [h₁] at hstep
        cases h₂ : parse_buffer_line kf₂ buf with
        | none => rw [h₂] at hstep; simp at hstep
        | some b =>
          rw [h₂] at hstep
          simp only [Option.map_some', Option.some.injEq] at hstep
          simp only [Option.some_bind]
          exact ih a b [] hstep
    · exact ih kf₁ kf₂ _ h

/-- The key files after a line `key=value₁` and after a line `key=value₂` in
its place are equal up to the values of `key`. -/
theorem parse_buffer_key_line (key : Str) (hkey : plain_key key = true) (kf : GKeyFile)
    (value₁ value₂ : Str) :
    (parse_buffer_line kf (key ++ '=' :: value₁)).map (without_value key) =
      (parse_buffer_line kf (key ++ '=' :: value₂)).map (without_value key) := by
  have hemp : ∀ v, (key ++ '=' :: drop_carriage_return v).isEmpty = false := by
    intro v; cases key <;> rfl
  simp only [parse_buffer_line, drop_carriage_return_key_line, hemp, Bool.false_eq_true,
    if_false]
  cases hcur : kf.current_group with
  | none =>
    rw [parse_key_line_no_group kf key _ hkey hcur, parse_key_line_no_group kf key _ hkey hcur]
  | some g =>
    rw [parse_key_line kf g key _ hkey hcur, parse_key_line kf g key _ hkey hcur]
    simp only [Option.map_some', without_value_add_pair, if_true]

theorem bind_without_value (key : Str) (o₁ o₂ : Option GKeyFile) (rest : Str)
    (h : o₁.map (without_value key) = o₂.map (without_value key)) :
    (o₁.bind fun kf1 => g_key_file_parse_data kf1 [] rest).map (without_value key) =
      (o₂.bind fun kf1 => g_key_file_parse_data kf1 [] rest).map (without_value key) := by
  cases o₁ with
  | none =>
    cases o₂ with
    | none => rfl
    | some b => simp at h
  | some a =>
    cases o₂ with
    | none => simp at h
    | some b =>
      simp only [Option.map_some', Option.some.injEq] at h
      simp only [Option.some_bind]
      exact parse_data_without_value key rest a b [] h

/-- Two texts that differ only in the value of one line `key=value` load to key
files that are equal up to the values of `key`, or both fail to load. -/
theorem load_without_value (key : Str) (hkey : plain_key key = true)
    (head value₁ value₂ tail : Str)
    (hhead : head = [] ∨ head.getLast? = some '\n')
    (h₁ : '\n' ∉ value₁) (h₂ : '\n' ∉ value₂) :
    (g_key_file_load_from_file (some (head ++ (key_line key value₁ ++ '\n' :: tail)))).map
        (without_value key) =
      (g_key_file_load_from_file (some (head ++ (key_line key value₂ ++ '\n' :: tail)))).map
        (without_value key) := by
  have hline : ∀ v, '\n' ∉ v → '\n' ∉ key_line key v := by
    intro v hv h
    obtain ⟨-, hall, -, -⟩ := plain_key_spec hkey
    rcases List.mem_append.1 h with h | h
    · exact (isspace_false_ne (hall _ h).2.2.2).2.1 rfl
    · rcases List.mem_cons.1 h with h | h
      · exact absurd h (by decide)
      · exact hv h
  have hstep : ∀ kf : GKeyFile,
      (g_key_file_parse_data kf [] (key_line key value₁ ++ '\n' :: tail)).map
          (without_value key) =
        (g_key_file_parse_data kf [] (key_line key value₂ ++ '\n' :: tail)).map
          (without_value key) := by
    intro kf
    rw [parse_data_line_step kf _ tail (hline value₁ h₁),
      parse_data_line_step kf _ tail (hline value₂ h₂)]
    exact bind_without_value key _ _ tail (parse_buffer_key_line key hkey kf value₁ value₂)
  simp only [g_key_file_load_from_file]
  rcases hhead with hhead | hhead
  · subst hhead
    simp only [List.nil_append]
    exact hstep _
  · rw [parse_data_append head _ _ [] hhead, parse_data_append head _ _ [] hhead]
    cases g_key_file_parse_data g_key_file_new [] head with
    | none => rfl
    | some kf => simp only [Option.some_bind]; exact hstep kf

/-- Two files whose key files are equal up to the values of
`PreventInvalidCert`, or that both fail to load, are imported to the same
result. -/
theorem import_congr (service : Str) (contents₁ contents₂ : Option Str)
    (h : (g_key_file_load_from_file contents₁).map (without_value "PreventInvalidCert".toList) =
      (g_key_file_load_from_file contents₂).map (without_value "PreventInvalidCert".toList)) :
    import_ service contents₁ = import_ service contents₂ := by
  cases h₁ : g_key_file_load_from_file contents₁ with
  | none =>
    rw [h₁] at h
    cases h₂ : g_key_file_load_from_file contents₂ with
    | none => simp only [import_, h₁, h₂]
    | some b => rw [h₂] at h; simp at h
  | some a =>
    rw [h₁] at h
    cases h₂ : g_key_file_load_from_file contents₂ with
    | none => rw [h₂] at h; simp at h
    | some b =>
      rw [h₂] at h
      simp only [Option.map_some', Option.some.injEq] at h
      apply import_congr_values service contents₁ contents₂ a b h₁ h₂
      intro key hk
      rw [← get_value_without_value "PreventInvalidCert".toList a section_name key hk,
        ← get_value_without_value "PreventInvalidCert".toList b section_name key hk, h]

/-! ## The written file and what the reader makes of it -/

theorem export_file (connection : NMConnection) (gateway : Str)
    (hg : nm_setting_vpn_get_data_item connection.s_vpn .GATEWAY = some gateway)
    (hne : gateway ≠ []) :
    export_ true connection =
      { success := true, error := none, file := some (export_fprintf connection gateway) } := by
  simp [export_, non_empty_eq_some hg hne]

theorem export_arguments_keys (connection : NMConnection) (gateway : Str) :
    (export_arguments connection gateway).map Prod.fst = export_keys := rfl

/-- Every key of the `fprintf` call is a plain key. -/
theorem export_arguments_plain (connection : NMConnection) (gateway : Str) :
    ∀ a ∈ export_arguments connection gateway, plain_key a.1 = true := by
  have hkeys : ∀ k ∈ export_keys, plain_key k = true := by decide
  intro a ha
  exact hkeys a.1 (by
    rw [← export_arguments_keys connection gateway]
    exact List.mem_map_of_mem _ ha)

theorem export_lookup (connection : NMConnection) (gateway : Str) :
    let args := export_arguments connection gateway
    let s_vpn := connection.s_vpn
    args.lookup "Description".toList = some connection.id ∧
    args.lookup "Host".toList = some (some gateway) ∧
    args.lookup "CACert".toList =
      some (some (or_empty (non_empty (nm_setting_vpn_get_data_item s_vpn .CACERT)))) ∧
    args.lookup "Protocol".toList =
      some (some ((non_empty (nm_setting_vpn_get_data_item s_vpn .PROTOCOL)).getD
        "anyconnect".toList)) ∧
    args.lookup "Proxy".toList =
      some (some (or_empty (non_empty (nm_setting_vpn_get_data_item s_vpn .PROXY)))) ∧
    args.lookup "CSDEnable".toList =
      some (some (one_or_zero (is_yes (nm_setting_vpn_get_data_item s_vpn .CSD_ENABLE)))) ∧
    args.lookup "CSDWrapper".toList =
      some (some (or_empty (non_empty (nm_setting_vpn_get_data_item s_vpn .CSD_WRAPPER)))) ∧
    args.lookup "ReportedOS".toList =
      some (some (or_empty (non_empty (nm_setting_vpn_get_data_item s_vpn .REPORTED_OS)))) ∧
    args.lookup "UserCertificate".toList =
      some (some (or_empty (non_empty (nm_setting_vpn_get_data_item s_vpn .USERCERT)))) ∧
    args.lookup "PrivateKey".toList =
      some (some (or_empty (non_empty (nm_setting_vpn_get_data_item s_vpn .PRIVKEY)))) ∧
    args.lookup "FSID".toList =
      some (some (one_or_zero (is_yes
        (nm_setting_vpn_get_data_item s_vpn .PEM_PASSPHRASE_FSID)))) ∧
    args.lookup "PreventInvalidCert".toList =
      some (some (one_or_zero (is_yes
        (nm_setting_vpn_get_data_item s_vpn .PREVENT_INVALID_CERT)))) ∧
    args.lookup "StokenSource".toList =
      some (some (or_empty (non_empty (nm_setting_vpn_get_data_item s_vpn .TOKEN_MODE)))) ∧
    args.lookup "StokenString".toList =
      some (some (or_empty (export_token_secret s_vpn))) := by
  refine ⟨rfl, rfl, rfl, rfl, rfl, rfl, rfl, rfl, rfl, rfl, rfl, rfl, rfl, rfl⟩

theorem store_lines_single (g : Str) (args : List (Str × Option Str))
    (pairs : List (Str × Str)) (s c : Option Str) :
    store_lines ⟨[(g, pairs)], s, c⟩ g args = ⟨[(g, stored_pairs args pairs)], s, c⟩ := by
  induction args generalizing pairs with
  | nil => rfl
  | cons a args ih =>
    obtain ⟨key, arg⟩ := a
    simp only [store_lines, stored_pairs, g_key_file_add_key_value_pair, List.map, if_true]
    exact ih _

theorem lookup_none_of_not_mem {α : Type} (k : Str) (l : List (Str × α))
    (h : k ∉ l.map Prod.fst) : l.lookup k = none := by
  induction l with
  | nil => rfl
  | cons a l ih =>
    obtain ⟨k', v⟩ := a
    simp only [List.map, List.mem_cons, not_or] at h
    have hk : (k == k') = false := by simpa using h.1
    simp only [List.lookup, hk]
    exact ih h.2

theorem lookup_stored_pairs (k : Str) (args : List (Str × Option Str))
    (pairs : List (Str × Str)) (hnodup : (args.map Prod.fst).Nodup) :
    (stored_pairs args pairs).lookup k =
      match args.lookup k with
      | some arg => some (stored_value (fprintf_s arg))
      | none => pairs.lookup k := by
  induction args generalizing pairs with
  | nil => rfl
  | cons a args ih =>
    obtain ⟨k', arg⟩ := a
    simp only [List.map, List.nodup_cons] at hnodup
    rw [stored_pairs, ih _ hnodup.2]
    by_cases hk : k = k'
    · subst hk
      rw [lookup_none_of_not_mem k args hnodup.1]
      simp [List.lookup]
    · have hk' : (k == k') = false := by simpa using hk
      simp only [List.lookup, hk']

theorem lookup_group_single (g : Str) (pairs : List (Str × Str)) (s c : Option Str) :
    g_key_file_lookup_group ⟨[(g, pairs)], s, c⟩ g = some pairs := by
  simp [g_key_file_lookup_group, List.lookup]

/-- The key file the reader makes of the text `export` writes, when every
argument of the `fprintf` call is free of line feeds. -/
theorem load_export (connection : NMConnection) (gateway : Str)
    (hargs : ∀ a ∈ export_arguments connection gateway, '\n' ∉ fprintf_s a.2) :
    g_key_file_load_from_file (some (export_fprintf connection gateway)) =
      some ⟨[(section_name, stored_pairs (export_arguments connection gateway) [])],
        some section_name, some section_name⟩ := by
  have hhead : g_key_file_parse_line g_key_file_new "[openconnect]".toList =
      some header_key_file := by decide
  have e : export_fprintf connection gateway =
      "[openconnect]".toList ++ '\n' :: fprintf_key_lines (export_arguments connection gateway) := by
    rfl
  rw [g_key_file_load_from_file, e, parse_data_line _ [] _ _ (by decide)]
  have h1 : drop_carriage_return ([] ++ "[openconnect]".toList) = "[openconnect]".toList := by
    decide
  have h2 : ("[openconnect]".toList).isEmpty = false := by decide
  simp only [h1, h2, Bool.false_eq_true, if_false, hhead]
  rw [parse_key_lines section_name _ header_key_file rfl
    (fun a ha => ⟨export_arguments_plain connection gateway a ha, hargs a ha⟩)]
  rw [header_key_file, store_lines_single]

/-- The raw value of a key in that key file. -/
theorem get_value_stored (connection : NMConnection) (gateway key : Str) :
    g_key_file_get_value
      ⟨[(section_name, stored_pairs (export_arguments connection gateway) [])],
        some section_name, some section_name⟩ section_name key =
      ((export_arguments connection gateway).lookup key).map
        fun arg => stored_value (fprintf_s arg) := by
  have hnodup : ((export_arguments connection gateway).map Prod.fst).Nodup := by
    rw [export_arguments_keys]; decide
  rw [g_key_file_get_value, lookup_group_single]
  show List.lookup key (stored_pairs (export_arguments connection gateway) []) = _
  rw [lookup_stored_pairs key _ [] hnodup]
  cases (export_arguments connection gateway).lookup key <;> rfl

theorem get_string_stored (connection : NMConnection) (gateway key : Str) :
    g_key_file_get_string
      ⟨[(section_name, stored_pairs (export_arguments connection gateway) [])],
        some section_name, some section_name⟩ section_name key =
      ((export_arguments connection gateway).lookup key).map
        fun arg => g_key_file_parse_value_as_string (stored_value (fprintf_s arg)) := by
  rw [g_key_file_get_string, get_value_stored]
  cases (export_arguments connection gateway).lookup key <;> rfl

theorem get_boolean_stored (connection : NMConnection) (gateway key : Str) :
    g_key_file_get_boolean
      ⟨[(section_name, stored_pairs (export_arguments connection gateway) [])],
        some section_name, some section_name⟩ section_name key =
      (((export_arguments connection gateway).lookup key).map
        fun arg => g_key_file_parse_value_as_boolean (stored_value (fprintf_s arg))).getD
        false := by
  rw [g_key_file_get_boolean, get_value_stored]
  cases (export_arguments connection gateway).lookup key <;> rfl

theorem or_empty_non_empty_getD (value : Option Str) :
    or_empty (non_empty value) = value.getD [] := by
  cases value with
  | none => rfl
  | some v => exact or_empty_non_empty v

/-- The defaulting of `export`, for a connection with a non-empty gateway: the
Protocol value is `anyconnect` for an absent or empty protocol item and the
item otherwise; each other optional string item is written as it is, an absent
one as the empty string; a boolean is written as `1` when its item is `yes` and
as `0` otherwise; a display name that is set is written as it is. -/
theorem export_written_defaults (connection : NMConnection) (gateway : Str)
    (hg : nm_setting_vpn_get_data_item connection.s_vpn .GATEWAY = some gateway)
    (hne : gateway ≠ []) :
    let item := nm_setting_vpn_get_data_item connection.s_vpn
    exported_value connection "Host".toList = some gateway ∧
    exported_value connection "Protocol".toList =
      some (if item .PROTOCOL = none ∨ item .PROTOCOL = some [] then "anyconnect".toList
            else (item .PROTOCOL).getD []) ∧
    (∀ v, connection.id = some v → exported_value connection "Description".toList = some v) ∧
    exported_value connection "CACert".toList = some ((item .CACERT).getD []) ∧
    exported_value connection "Proxy".toList = some ((item .PROXY).getD []) ∧
    exported_value connection "CSDWrapper".toList = some ((item .CSD_WRAPPER).getD []) ∧
    exported_value connection "ReportedOS".toList = some ((item .REPORTED_OS).getD []) ∧
    exported_value connection "UserCertificate".toList = some ((item .USERCERT).getD []) ∧
    exported_value connection "PrivateKey".toList = some ((item .PRIVKEY).getD []) ∧
    exported_value connection "StokenSource".toList = some ((item .TOKEN_MODE).getD []) ∧
    exported_value connection "CSDEnable".toList =
      some (if item .CSD_ENABLE = some "yes".toList then "1".toList else "0".toList) ∧
    exported_value connection "FSID".toList =
      some (if item .PEM_PASSPHRASE_FSID = some "yes".toList then "1".toList
            else "0".toList) ∧
    exported_value connection "PreventInvalidCert".toList =
      some (if item .PREVENT_INVALID_CERT = some "yes".toList then "1".toList
            else "0".toList) := by
  obtain ⟨a1, a2, a3, a4, a5, a6, a7, a8, a9, a10, a11, a12, a13, -⟩ :=
    export_lookup connection gateway
  have hval : ∀ key, exported_value connection key =
      ((export_arguments connection gateway).lookup key).map fprintf_s := by
    intro key; simp only [exported_value, non_empty_eq_some hg hne]
  have hyes : ∀ value : Option Str,
      one_or_zero (is_yes value) = if value = some "yes".toList then "1".toList
        else "0".toList := by
    intro value
    cases value with
    | none => rfl
    | some v =>
      by_cases h : v = "yes".toList
      · subst h; rfl
      · have h' : (v == "yes".toList) = false := by simpa using h
        have h'' : ¬ some v = some "yes".toList := fun e => h (Option.some.inj e)
        simp only [is_yes, h', one_or_zero, Bool.false_eq_true, if_false, h'']
  intro item
  refine ⟨?_, ?_, ?_, ?_, ?_, ?_, ?_, ?_, ?_, ?_, ?_, ?_, ?_⟩
  · simp only [hval, a2, Option.map_some', fprintf_s]
  · simp only [hval, a4, Option.map_some', fprintf_s, item]
    cases hp : nm_setting_vpn_get_data_item connection.s_vpn .PROTOCOL with
    | none => simp [non_empty]
    | some v => cases v <;> simp [non_empty]
  · intro v hv
    simp only [hval, a1, Option.map_some', fprintf_s, hv]
  · simp only [hval, a3, Option.map_some', fprintf_s, or_empty_non_empty_getD, item]
  · simp only [hval, a5, Option.map_some', fprintf_s, or_empty_non_empty_getD, item]
  · simp only [hval, a7, Option.map_some', fprintf_s, or_empty_non_empty_getD, item]
  · simp only [hval, a8, Option.map_some', fprintf_s, or_empty_non_empty_getD, item]
  · simp only [hval, a9, Option.map_some', fprintf_s, or_empty_non_empty_getD, item]
  · simp only [hval, a10, Option.map_some', fprintf_s, or_empty_non_empty_getD, item]
  · simp only [hval, a13, Option.map_some', fprintf_s, or_empty_non_empty_getD, item]
  · simp only [hval, a6, Option.map_some', fprintf_s, hyes, item]
  · simp only [hval, a11, Option.map_some', fprintf_s, hyes, item]
  · simp only [hval, a12, Option.map_some', fprintf_s, hyes, item]

/-! ## Boolean values of the key file -/

theorem add_detail_loop_none (add_detail : Str) (l : List oc_vpn_proto) (i : Nat) :
    add_detail_loop add_detail i l = none ↔ ∀ p ∈ l, p.name ≠ add_detail := by
  induction l generalizing i with
  | nil => simp [add_detail_loop]
  | cons q l ih =>
    by_cases h : add_detail = q.name
    · simp [add_detail_loop, h]
    · have h' : ¬ q.name = add_detail := fun e => h e.symm
      simp [add_detail_loop, h, h', ih]

theorem add_detail_loop_first (add_detail : Str) (pre post : List oc_vpn_proto)
    (p : oc_vpn_proto) (i : Nat) (hpre : ∀ q ∈ pre, q.name ≠ add_detail)
    (hp : p.name = add_detail) :
    add_detail_loop add_detail i (pre ++ p :: post) =
      some (add_detail_answer add_detail (i + pre.length) p) := by
  induction pre generalizing i with
  | nil =>
    simp only [List.nil_append, add_detail_loop, hp, ne_eq, not_true_eq_false, if_false,
      List.length_nil, Nat.add_zero, add_detail_answer]
    by_cases hi : i = 0 <;> simp [hi]
  | cons q pre ih =>
    have hq : add_detail ≠ q.name := fun e => hpre q (List.mem_cons_self _ _) e.symm
    have := ih (i + 1) (fun r hr => hpre r (List.mem_cons_of_mem _ hr))
    have e : i + (pre.length + 1) = i + 1 + pre.length := by omega
    rw [List.cons_append, add_detail_loop, if_pos hq, List.length_cons, e]
    exact this

/-! ## The claims -/

/-- C1 (counterexample): every field is populated, none is `(null)` and the
gateway is not empty. With the two characters backslash and `s` in the display
name, export and import succeed and the imported display name has a blank in
their place; with a line feed in it, the import fails; a blank in front of it
or a carriage return behind it is gone after the import. An empty protocol
comes back as `anyconnect`, and an empty token secret comes back as the token
secret of the plain data items. -/
theorem export_import_changes_value :
    all_populated (profile c1_backslash) = true ∧
    (export_ true c1_backslash).success = true ∧
    (profile c1_backslash).displayName = some "corp\\site".toList ∧
    (import_ sample_service (export_ true c1_backslash).file).toOption.map
      (fun connection => (profile connection).displayName) =
        some (some "corp ite".toList) ∧
    all_populated (profile c1_line_feed) = true ∧
    import_ sample_service (export_ true c1_line_feed).file = .error .NOT_OPENCONNECT ∧
    all_populated (profile c1_leading_blank) = true ∧
    (import_ sample_service (export_ true c1_leading_blank).file).toOption.map
      (fun connection => (profile connection).displayName) =
        some (some "Work VPN".toList) ∧
    all_populated (profile c1_carriage_return) = true ∧
    (import_ sample_service (export_ true c1_carriage_return).file).toOption.map
      (fun connection => (profile connection).displayName) =
        some (some "Work VPN".toList) ∧
    all_populated (profile c1_empty_protocol) = true ∧
    (profile c1_empty_protocol).protocol = some [] ∧
    (import_ sample_service (export_ true c1_empty_protocol).file).toOption.map
      (fun connection => (profile connection).protocol) =
        some (some "anyconnect".toList) ∧
    all_populated (profile c1_empty_secret) = true ∧
    (profile c1_empty_secret).tokenSecret = some [] ∧
    (import_ sample_service (export_ true c1_empty_secret).file).toOption.map
      (fun connection => (profile connection).tokenSecret) =
        some (some "abc".toList) := by
  decide

/-- C1 (amended): for a connection whose string fields are all populated with
values other than `(null)` that read back as written (without line feed and
escape sequence of the key-file format, not starting with white space, not
ending in a carriage return), and whose gateway, protocol and token secret are
not empty, exporting and then importing the written file succeeds and gives a
profile equal to the original in every field except preventInvalidCert, which
is true. -/
theorem export_import_round_trip (service : Str) (connection : NMConnection)
    (hfields : all_read_back (profile connection) = true) :
    (export_ true connection).success = true ∧
    ∃ imported, import_ service (export_ true connection).file = .ok imported ∧
      profile imported = { profile connection with preventInvalidCert := true } := by
  simp only [all_read_back, List.all_cons, List.all_nil, Bool.and_true,
    Bool.and_eq_true (field_reads_back _ && _), Bool.and_eq_true (_ && non_empty_field _),
    Bool.and_eq_true _ (non_empty_field _)] at hfields
  obtain ⟨⟨⟨⟨h1, h2, h3, h4, h5, h6, h7, h8, h9, h10, h11⟩, n2⟩, n4⟩, n11⟩ := hfields
  obtain ⟨vid, eid, lid, sid, uid, -⟩ := field_reads_back_spec h1
  obtain ⟨vgw, egw, lgw, sgw, ugw, -⟩ := field_reads_back_spec h2
  obtain ⟨vca, eca, lca, sca, uca, xca⟩ := field_reads_back_spec h3
  obtain ⟨vpr, epr, lpr, spr, upr, -⟩ := field_reads_back_spec h4
  obtain ⟨vpx, epx, lpx, spx, upx, -⟩ := field_reads_back_spec h5
  obtain ⟨vwr, ewr, lwr, swr, uwr, -⟩ := field_reads_back_spec h6
  obtain ⟨vos, eos, los, sos, uos, -⟩ := field_reads_back_spec h7
  obtain ⟨vuc, euc, luc, suc, uuc, xuc⟩ := field_reads_back_spec h8
  obtain ⟨vpk, epk, lpk, spk, upk, xpk⟩ := field_reads_back_spec h9
  obtain ⟨vtm, etm, ltm, stm, utm, -⟩ := field_reads_back_spec h10
  obtain ⟨vts, ets, lts, sts, uts, -⟩ := field_reads_back_spec h11
  rw [egw] at n2
  rw [epr] at n4
  rw [ets] at n11
  have ngw := non_empty_field_some n2
  have npr := non_empty_field_some n4
  have nts := non_empty_field_some n11
  simp only [profile] at eid egw eca epr epx ewr eos euc epk etm ets
  have htok : export_token_secret connection.s_vpn = some vts := by
    simp only [export_token_secret, ets, non_empty_some nts]
  have hargs : ∀ a ∈ export_arguments connection vgw, '\n' ∉ fprintf_s a.2 := by
    intro a ha
    simp only [export_arguments, List.mem_cons, List.mem_singleton, List.not_mem_nil,
      or_false] at ha
    rcases ha with h | h | h | h | h | h | h | h | h | h | h | h | h | h <;> subst h <;>
      simp only [fprintf_s, eid, eca, epr, epx, ewr, eos, euc, epk, etm, htok,
        or_empty_non_empty, non_empty_some npr, Option.getD_some] <;>
      first
        | assumption
        | exact (one_or_zero_reads _).2
  obtain ⟨a1, a2, a3, a4, a5, a6, a7, a8, a9, a10, a11, a12, a13, a14⟩ :=
    export_lookup connection vgw
  rw [export_file connection vgw egw ngw]
  refine ⟨rfl, ?_⟩
  simp only [import_, load_export connection vgw hargs, get_string_stored, a2,
    Option.map_some']
  refine ⟨_, rfl, ?_⟩
  rw [profile_import_settings]
  have etok : or_empty (some vts) = vts := rfl
  simp only [get_string_stored, get_boolean_stored, a1, a3, a4, a5, a6, a7, a8, a9, a10, a11,
    a12, a13, a14, Option.map_some', Option.getD_some, fprintf_s, eid, eca, epr, epx, ewr, eos,
    euc, epk, etm, htok, or_empty_non_empty, non_empty_some npr, etok, sid, sgw, sca, spr,
    spx, swr, sos, suc, spk, stm, sts, uid, ugw, uca, upr, upx, uwr, uos, uuc, upk, utm, uts,
    xca, xuc, xpk, if_false, is_yes_one_or_zero, profile, egw, ets]

theorem export_import_round_trip_witness :
    (export_ true c1_plain).success = true ∧
    ∃ imported, import_ sample_service (export_ true c1_plain).file = .ok imported ∧
      profile imported = { profile c1_plain with preventInvalidCert := true } :=
  export_import_round_trip sample_service c1_plain (by decide)

/-- C2 (counterexample): the file parses and holds the key `Host` with the value
`vpn\sexample.com`; it is imported, and the gateway is `vpn example.com`, with a
blank where the file has the backslash and the `s`, not the value of the key as
it stands in the file. -/
theorem import_host_escape_decoded :
    g_key_file_load_from_file (some c2_escape_file) = some (loaded c2_escape_file) ∧
    g_key_file_get_value (loaded c2_escape_file) section_name "Host".toList =
      some "vpn\\sexample.com".toList ∧
    ∃ connection, import_ sample_service (some c2_escape_file) = .ok connection ∧
      (profile connection).gateway = some "vpn example.com".toList ∧
      (profile connection).gateway ≠ some "vpn\\sexample.com".toList :=
  ⟨by decide, by decide,
    import_settings sample_service (loaded c2_escape_file) "vpn example.com".toList,
    by decide, by decide, by decide⟩

/-- C2 (amended): a parseable file without `Host` key in the `openconnect` section
makes `import` fail with the BAD_DATA error, whatever else it holds, and so does
every parseable file for which the key file gives no string value under `Host`.
A parseable file for which the key file gives a string value under `Host` is
imported, and the gateway is that string value; it is the value of the `Host`
key with the escape sequences of the key-file format decoded, and so the value
itself whenever that holds no escape sequence. -/
theorem import_host_required (service : Str) (contents : Option Str) (keyfile : GKeyFile)
    (hload : g_key_file_load_from_file contents = some keyfile) :
    (g_key_file_get_value keyfile section_name "Host".toList = none →
      import_ service contents = .error .BAD_DATA) ∧
    (g_key_file_get_string keyfile section_name "Host".toList = none →
      import_ service contents = .error .BAD_DATA) ∧
    (∀ host, g_key_file_get_string keyfile section_name "Host".toList = some host →
      (∃ connection, import_ service contents = .ok connection ∧
        (profile connection).gateway = some host ∧
        nm_setting_vpn_get_data_item connection.s_vpn .GATEWAY = some host) ∧
      ∀ raw, g_key_file_get_value keyfile section_name "Host".toList = some raw →
        host = g_key_file_parse_value_as_string raw ∧ (has_escape raw = false → host = raw)) := by
  refine ⟨?_, ?_, ?_⟩
  · intro h
    simp only [import_, hload, get_string_of_no_value h]
  · intro h
    simp only [import_, hload, h]
  · intro host hhost
    refine ⟨⟨import_settings service keyfile host, ?_, ?_, ?_⟩, ?_⟩
    · simp only [import_, hload, hhost]
    · rw [profile_import_settings]
    · have := congrArg ConnectionProfile.gateway
        (profile_import_settings service keyfile host)
      simpa [profile] using this
    · intro raw hraw
      exact get_string_decodes hraw hhost

theorem import_host_required_witness :
    import_ sample_service (some c2_file_no_host) = .error .BAD_DATA ∧
    import_ sample_service (some c2_file_empty_section) = .error .BAD_DATA ∧
    ((∃ connection, import_ sample_service (some c2_file) = .ok connection ∧
        (profile connection).gateway = some "vpn.example.com".toList ∧
        nm_setting_vpn_get_data_item connection.s_vpn .GATEWAY =
          some "vpn.example.com".toList) ∧
      ∀ raw, g_key_file_get_value (loaded c2_file) section_name "Host".toList = some raw →
        "vpn.example.com".toList = g_key_file_parse_value_as_string raw ∧
          (has_escape raw = false → "vpn.example.com".toList = raw)) :=
  ⟨(import_host_required sample_service (some c2_file_no_host) (loaded c2_file_no_host)
      (by decide)).1 (by decide),
   (import_host_required sample_service (some c2_file_empty_section)
      (loaded c2_file_empty_section) (by decide)).2.1 (by decide),
   (import_host_required sample_service (some c2_file) (loaded c2_file) (by decide)).2.2
      "vpn.example.com".toList (by decide)⟩

/-- C3: with the destination opened, a connection without gateway item, or with
an empty one, makes `export` return FALSE with the BAD_DATA error and leaves the
file truncated and empty; a connection with a non-empty gateway makes it return
TRUE. -/
theorem export_gateway_required (connection : NMConnection) :
    ((nm_setting_vpn_get_data_item connection.s_vpn .GATEWAY = none ∨
        nm_setting_vpn_get_data_item connection.s_vpn .GATEWAY = some []) →
      export_ true connection =
        { success := false, error := some .BAD_DATA, file := some [] }) ∧
    (∀ gateway, nm_setting_vpn_get_data_item connection.s_vpn .GATEWAY = some gateway →
      gateway ≠ [] →
      (export_ true connection).success = true ∧ (export_ true connection).error = none) := by
  constructor
  · intro h
    simp [export_, non_empty_eq_none h]
  · intro gateway h hg
    simp [export_, non_empty_eq_some h hg]

theorem export_gateway_required_witness :
    export_ true c3_no_gateway = { success := false, error := some .BAD_DATA, file := some [] } ∧
    ((export_ true c3_gateway).success = true ∧ (export_ true c3_gateway).error = none) :=
  ⟨(export_gateway_required c3_no_gateway).1 (Or.inl (by decide)),
   (export_gateway_required c3_gateway).2 "vpn.example.com".toList (by decide) (by decide)⟩

/-- C4 (failing input): for a connection whose id is unset, `export` succeeds and
writes `Description=(null)`, not an empty Description value. -/
theorem export_description_null :
    (profile c4_no_id).displayName = none ∧
    (export_ true c4_no_id).success = true ∧
    exported_value c4_no_id "Description".toList = some "(null)".toList ∧
    (export_ true c4_no_id).file = some
      ("[openconnect]\nDescription=(null)\nHost=vpn.example.com\nCACert=\n" ++
       "Protocol=anyconnect\nProxy=\nCSDEnable=0\nCSDWrapper=\nReportedOS=\n" ++
       "UserCertificate=\nPrivateKey=\nFSID=0\nPreventInvalidCert=0\n" ++
       "StokenSource=\nStokenString=\n").toList := by
  decide

/-- C5 (counterexample): the display name holds a line feed; the export
succeeds, and the written file has fifteen lines after the header, the second
of which, `VPN`, is no `Key=Value` line. -/
theorem export_two_line_value :
    (export_ true c5_two_lines).success = true ∧
    (export_ true c5_two_lines).file.map (text_lines []) = some
      [ "[openconnect]".toList, "Description=Work".toList, "VPN".toList,
        "Host=vpn.example.com".toList, "CACert=".toList, "Protocol=anyconnect".toList,
        "Proxy=".toList, "CSDEnable=0".toList, "CSDWrapper=".toList, "ReportedOS=".toList,
        "UserCertificate=".toList, "PrivateKey=".toList, "FSID=0".toList,
        "PreventInvalidCert=0".toList, "StokenSource=".toList, "StokenString=".toList ] ∧
    (export_ true c5_two_lines).file.map (fun text => (text_lines [] text).length) ≠
      some 15 := by
  decide

/-- C5 (amended): when `export` succeeds and no value it writes holds a line
feed, the written file consists of the header line `[openconnect]` followed by
exactly fourteen lines `Key=Value`, the keys being Description, Host, CACert,
Protocol, Proxy, CSDEnable, CSDWrapper, ReportedOS, UserCertificate, PrivateKey,
FSID, PreventInvalidCert, StokenSource, StokenString in this order; every key
is written, and the Host and Protocol values are not empty. -/
theorem export_file_lines (connection : NMConnection)
    (hsuccess : (export_ true connection).success = true)
    (hlines : ∀ key ∈ export_keys, '\n' ∉ (exported_value connection key).getD []) :
    (export_ true connection).file.map (text_lines []) =
      some ("[openconnect]".toList ::
        export_keys.map fun key => key_line key ((exported_value connection key).getD [])) ∧
    export_keys.length = 14 ∧
    (∀ key ∈ export_keys, (exported_value connection key).isSome = true) ∧
    (∃ v, exported_value connection "Host".toList = some v ∧ v ≠ []) ∧
    (∃ v, exported_value connection "Protocol".toList = some v ∧ v ≠ []) := by
  cases hgw : non_empty (nm_setting_vpn_get_data_item connection.s_vpn .GATEWAY) with
  | none => simp [export_, hgw] at hsuccess
  | some gateway =>
    obtain ⟨hg, hne⟩ := non_empty_eq hgw
    obtain ⟨a1, a2, a3, a4, a5, a6, a7, a8, a9, a10, a11, a12, a13, a14⟩ :=
      export_lookup connection gateway
    have hval : ∀ key, exported_value connection key =
        ((export_arguments connection gateway).lookup key).map fprintf_s := by
      intro key; simp only [exported_value, hgw]
    have hargs : ∀ a ∈ export_arguments connection gateway, '\n' ∉ fprintf_s a.2 := by
      intro a ha
      simp only [export_arguments, List.mem_cons, List.mem_singleton, List.not_mem_nil,
        or_false] at ha
      rcases ha with h | h | h | h | h | h | h | h | h | h | h | h | h | h <;> subst h
      · simpa [hval, a1] using hlines "Description".toList (by decide)
      · simpa [hval, a2] using hlines "Host".toList (by decide)
      · simpa [hval, a3] using hlines "CACert".toList (by decide)
      · simpa [hval, a4] using hlines "Protocol".toList (by decide)
      · simpa [hval, a5] using hlines "Proxy".toList (by decide)
      · simpa [hval, a6] using hlines "CSDEnable".toList (by decide)
      · simpa [hval, a7] using hlines "CSDWrapper".toList (by decide)
      · simpa [hval, a8] using hlines "ReportedOS".toList (by decide)
      · simpa [hval, a9] using hlines "UserCertificate".toList (by decide)
      · simpa [hval, a10] using hlines "PrivateKey".toList (by decide)
      · simpa [hval, a11] using hlines "FSID".toList (by decide)
      · simpa [hval, a12] using hlines "PreventInvalidCert".toList (by decide)
      · simpa [hval, a13] using hlines "StokenSource".toList (by decide)
      · simpa [hval, a14] using hlines "StokenString".toList (by decide)
    refine ⟨?_, rfl, ?_, ?_, ?_⟩
    · rw [export_file connection gateway hg hne]
      have e : export_fprintf connection gateway =
          "[openconnect]".toList ++ '\n' ::
            fprintf_key_lines (export_arguments connection gateway) := rfl
      simp only [Option.map_some', e]
      rw [text_lines_line [] _ _ (by decide), text_lines_key_lines _
        (fun a ha => ⟨export_arguments_plain connection gateway a ha, hargs a ha⟩)]
      simp only [export_keys, List.map, hval, a1, a2, a3, a4, a5, a6, a7, a8, a9, a10, a11,
        a12, a13, a14, Option.map_some', Option.getD_some, List.nil_append]
    · intro key hkey
      simp only [export_keys, List.mem_cons, List.mem_singleton, List.not_mem_nil,
        or_false] at hkey
      rcases hkey with h | h | h | h | h | h | h | h | h | h | h | h | h | h <;> subst h <;>
        simp only [hval, a1, a2, a3, a4, a5, a6, a7, a8, a9, a10, a11, a12, a13, a14,
          Option.map_some', Option.isSome_some]
    · exact ⟨gateway, by simp only [hval, a2, Option.map_some', fprintf_s], hne⟩
    · refine ⟨(non_empty (nm_setting_vpn_get_data_item connection.s_vpn .PROTOCOL)).getD
        "anyconnect".toList, by simp only [hval, a4, Option.map_some', fprintf_s], ?_⟩
      cases hp : non_empty (nm_setting_vpn_get_data_item connection.s_vpn .PROTOCOL) with
      | none => simp
      | some v => simpa using (non_empty_eq hp).2

theorem export_file_lines_witness :
    (export_ true c3_gateway).file.map (text_lines []) =
      some ("[openconnect]".toList ::
        export_keys.map fun key => key_line key ((exported_value c3_gateway key).getD [])) ∧
    export_keys.length = 14 ∧
    (∀ key ∈ export_keys, (exported_value c3_gateway key).isSome = true) ∧
    (∃ v, exported_value c3_gateway "Host".toList = some v ∧ v ≠ []) ∧
    (∃ v, exported_value c3_gateway "Protocol".toList = some v ∧ v ≠ []) :=
  export_file_lines c3_gateway (by decide) (by decide)

/-- C6 (counterexample): the file parses and has a `Host` key. Its `CACert` value
is `(null)` followed by a backslash, which is not the literal `(null)`, yet the
imported profile has no CA certificate. Its `PrivateKey` value is
`C:\certs\new\tom.pem`, which is not `(null)` either, and the imported private
key path has a line feed and a tab where the file has `\n` and `\t`: it is not
the value of the key as it stands in the file. -/
theorem import_sentinel_after_decoding :
    g_key_file_load_from_file (some c6_escape_file) = some (loaded c6_escape_file) ∧
    g_key_file_get_value (loaded c6_escape_file) section_name "CACert".toList =
      some "(null)\\".toList ∧
    "(null)\\".toList ≠ "(null)".toList ∧
    g_key_file_get_value (loaded c6_escape_file) section_name "PrivateKey".toList =
      some "C:\\certs\\new\\tom.pem".toList ∧
    "C:\\certs\\new\\tom.pem".toList ≠ "(null)".toList ∧
    ∃ connection, import_ sample_service (some c6_escape_file) = .ok connection ∧
      (profile connection).caCertPath = none ∧
      (profile connection).privateKeyPath = some "C:\\certs\new\tom.pem".toList ∧
      (profile connection).privateKeyPath ≠ some "C:\\certs\\new\\tom.pem".toList :=
  ⟨by decide, by decide, by decide, by decide, by decide,
    import_settings sample_service (loaded c6_escape_file) "vpn.example.com".toList,
    by decide, by decide, by decide, by decide⟩

/-- C6 (amended): for a parseable file for which the key file gives a string
value under `Host`, the file is imported, and for each of `CACert`,
`UserCertificate` and `PrivateKey`: when the string value the key file gives is
the literal `(null)` the field is absent; when it is any other string the field
is that string; when the key file gives no string value the field is absent.
The sentinel applies to no other key: the fields of `Proxy`, `Description`,
`Protocol`, `CSDWrapper`, `ReportedOS`, `StokenSource` and `StokenString` are
the string values the key file gives, also when they read `(null)`. For every
key the string value is the value of the key with the escape sequences of the
key-file format decoded, and so the value itself whenever that holds no escape
sequence. -/
theorem import_null_sentinel (service : Str) (contents : Option Str) (keyfile : GKeyFile)
    (host : Str) (hload : g_key_file_load_from_file contents = some keyfile)
    (hhost : g_key_file_get_string keyfile section_name "Host".toList = some host) :
    (∃ connection, import_ service contents = .ok connection ∧
      (g_key_file_get_string keyfile section_name "CACert".toList = some "(null)".toList →
        (profile connection).caCertPath = none) ∧
      (g_key_file_get_string keyfile section_name "UserCertificate".toList =
        some "(null)".toList → (profile connection).userCertPath = none) ∧
      (g_key_file_get_string keyfile section_name "PrivateKey".toList =
        some "(null)".toList → (profile connection).privateKeyPath = none) ∧
      (∀ v, g_key_file_get_string keyfile section_name "CACert".toList = some v →
        v ≠ "(null)".toList → (profile connection).caCertPath = some v) ∧
      (∀ v, g_key_file_get_string keyfile section_name "UserCertificate".toList = some v →
        v ≠ "(null)".toList → (profile connection).userCertPath = some v) ∧
      (∀ v, g_key_file_get_string keyfile section_name "PrivateKey".toList = some v →
        v ≠ "(null)".toList → (profile connection).privateKeyPath = some v) ∧
      (g_key_file_get_string keyfile section_name "CACert".toList = none →
        (profile connection).caCertPath = none) ∧
      (g_key_file_get_string keyfile section_name "UserCertificate".toList = none →
        (profile connection).userCertPath = none) ∧
      (g_key_file_get_string keyfile section_name "PrivateKey".toList = none →
        (profile connection).privateKeyPath = none) ∧
      (profile connection).httpProxy =
        g_key_file_get_string keyfile section_name "Proxy".toList ∧
      (profile connection).displayName =
        g_key_file_get_string keyfile section_name "Description".toList ∧
      (profile connection).protocol =
        g_key_file_get_string keyfile section_name "Protocol".toList ∧
      (profile connection).csdWrapperPath =
        g_key_file_get_string keyfile section_name "CSDWrapper".toList ∧
      (profile connection).reportedOs =
        g_key_file_get_string keyfile section_name "ReportedOS".toList ∧
      (profile connection).tokenMode =
        g_key_file_get_string keyfile section_name "StokenSource".toList ∧
      (profile connection).tokenSecret =
        g_key_file_get_string keyfile section_name "StokenString".toList) ∧
    (∀ key raw v, g_key_file_get_value keyfile section_name key = some raw →
      g_key_file_get_string keyfile section_name key = some v →
      v = g_key_file_parse_value_as_string raw ∧ (has_escape raw = false → v = raw)) := by
  refine ⟨⟨import_settings service keyfile host, ?_, ?_⟩, ?_⟩
  · simp only [import_, hload, hhost]
  · rw [profile_import_settings]
    refine ⟨?_, ?_, ?_, ?_, ?_, ?_, ?_, ?_, ?_, rfl, rfl, rfl, rfl, rfl, rfl, rfl⟩
    · intro h; simp only [h, if_true]
    · intro h; simp only [h, if_true]
    · intro h; simp only [h, if_true]
    · intro v h hv
      have : ¬ some v = some "(null)".toList := fun e => hv (Option.some.inj e)
      simp only [h, this, if_false]
    · intro v h hv
      have : ¬ some v = some "(null)".toList := fun e => hv (Option.some.inj e)
      simp only [h, this, if_false]
    · intro v h hv
      have : ¬ some v = some "(null)".toList := fun e => hv (Option.some.inj e)
      simp only [h, this, if_false]
    · intro h; simp only [h, reduceCtorEq, if_false]
    · intro h; simp only [h, reduceCtorEq, if_false]
    · intro h; simp only [h, reduceCtorEq, if_false]
  · intro key raw v hraw hv
    exact get_string_decodes hraw hv

theorem import_null_sentinel_witness :
    (∃ connection, import_ sample_service (some c2_file) = .ok connection ∧
      (profile connection).caCertPath = none ∧
      (profile connection).userCertPath = none ∧
      (profile connection).httpProxy = some "(null)".toList) ∧
    (∃ connection, import_ sample_service (some c6_file) = .ok connection ∧
      (profile connection).userCertPath = none ∧
      (profile connection).privateKeyPath = some "/home/u/key.pem".toList) ∧
    ("/home/u/key.pem".toList = g_key_file_parse_value_as_string "/home/u/key.pem".toList ∧
      (has_escape "/home/u/key.pem".toList = false →
        "/home/u/key.pem".toList = "/home/u/key.pem".toList)) := by
  refine ⟨?_, ?_, ?_⟩
  · obtain ⟨⟨connection, hc, h⟩, -⟩ := import_null_sentinel sample_service (some c2_file)
      (loaded c2_file) "vpn.example.com".toList (by decide) (by decide)
    refine ⟨connection, hc, h.1 (by decide), h.2.2.2.2.2.2.2.1 (by decide), ?_⟩
    rw [h.2.2.2.2.2.2.2.2.2.1]
    decide
  · obtain ⟨⟨connection, hc, h⟩, -⟩ := import_null_sentinel sample_service (some c6_file)
      (loaded c6_file) "vpn.example.com".toList (by decide) (by decide)
    exact ⟨connection, hc, h.2.1 (by decide),
      h.2.2.2.2.2.1 "/home/u/key.pem".toList (by decide) (by decide)⟩
  · exact (import_null_sentinel sample_service (some c6_file) (loaded c6_file)
      "vpn.example.com".toList (by decide) (by decide)).2 "PrivateKey".toList
      "/home/u/key.pem".toList "/home/u/key.pem".toList (by decide) (by decide)

/-- C7: a connection that `import` returns has the prevent-invalid-cert item set
to `yes`, whatever the file says under `PreventInvalidCert`. Two files that
differ only in the value of a line `PreventInvalidCert=...` are imported to the
same result, and so are two parseable files whose `openconnect` sections agree
on every key other than `PreventInvalidCert` (the key may be missing in one of
them). -/
theorem import_prevent_invalid_cert (service : Str) :
    (∀ contents connection, import_ service contents = .ok connection →
      nm_setting_vpn_get_data_item connection.s_vpn .PREVENT_INVALID_CERT =
        some "yes".toList ∧
      (profile connection).preventInvalidCert = true) ∧
    (∀ head value₁ value₂ tail : Str, (head = [] ∨ head.getLast? = some '\n') →
      '\n' ∉ value₁ → '\n' ∉ value₂ →
      import_ service
          (some (head ++ (key_line "PreventInvalidCert".toList value₁ ++ '\n' :: tail))) =
        import_ service
          (some (head ++ (key_line "PreventInvalidCert".toList value₂ ++ '\n' :: tail)))) ∧
    (∀ contents₁ contents₂ keyfile₁ keyfile₂,
      g_key_file_load_from_file contents₁ = some keyfile₁ →
      g_key_file_load_from_file contents₂ = some keyfile₂ →
      (∀ key, key ≠ "PreventInvalidCert".toList →
        g_key_file_get_value keyfile₁ section_name key =
          g_key_file_get_value keyfile₂ section_name key) →
      import_ service contents₁ = import_ service contents₂) := by
  refine ⟨?_, ?_, ?_⟩
  · intro contents connection h
    simp only [import_] at h
    cases hl : g_key_file_load_from_file contents with
    | none => simp only [hl] at h; cases h
    | some keyfile =>
      simp only [hl] at h
      cases hh : g_key_file_get_string keyfile section_name "Host".toList with
      | none => simp only [hh] at h; cases h
      | some host =>
        simp only [hh] at h
        have hc : connection = import_settings service keyfile host := by
          cases h; rfl
        have hp := congrArg ConnectionProfile.preventInvalidCert
          (profile_import_settings service keyfile host)
        subst hc
        refine ⟨?_, hp⟩
        simp only [import_settings, get_data_item_add_if, get_data_item_add_unless_null,
          get_data_item_add_yes_if, get_data_item_add, get_data_item_add_secret_if,
          get_data_item_new, reduceCtorEq, false_and, true_and, if_false, if_true]
  · intro head value₁ value₂ tail hhead h₁ h₂
    exact import_congr service _ _
      (load_without_value "PreventInvalidCert".toList (by decide) head value₁ value₂ tail
        hhead h₁ h₂)
  · intro contents₁ contents₂ keyfile₁ keyfile₂ hload₁ hload₂ hsame
    exact import_congr_values service contents₁ contents₂ keyfile₁ keyfile₂ hload₁ hload₂ hsame

theorem import_prevent_invalid_cert_witness :
    (nm_setting_vpn_get_data_item (import_settings sample_service (loaded c2_file)
        "vpn.example.com".toList).s_vpn .PREVENT_INVALID_CERT = some "yes".toList ∧
      (profile (import_settings sample_service (loaded c2_file)
        "vpn.example.com".toList)).preventInvalidCert = true) ∧
    import_ sample_service
        (some ("[openconnect]\nHost=vpn.example.com\n".toList ++
          (key_line "PreventInvalidCert".toList "false".toList ++ '\n' :: "Proxy=p\n".toList))) =
      import_ sample_service
        (some ("[openconnect]\nHost=vpn.example.com\n".toList ++
          (key_line "PreventInvalidCert".toList "maybe".toList ++ '\n' :: "Proxy=p\n".toList))) :=
  ⟨(import_prevent_invalid_cert sample_service).1 (some c2_file) _ (by decide),
   (import_prevent_invalid_cert sample_service).2.1 "[openconnect]\nHost=vpn.example.com\n".toList
      "false".toList "maybe".toList "Proxy=p\n".toList (Or.inr (by decide)) (by decide)
      (by decide)⟩

/-- C8: called with the openconnect service type, the add-detail lookup reports
found exactly when some catalog entry has the name asked for; it answers from
the first such entry, without key/value pair when that entry is at index 0 and
with the pair (protocol key, name) at any other index. For the fallback catalog
`anyconnect`, `nc`: `anyconnect` gives no pair, `nc` gives the pair
(protocol key, `nc`), `bogus-protocol` is not found. -/
theorem add_detail_lookup (service : Str) (priv : OpenconnectEditorPluginPrivate)
    (add_detail : Str) :
    ((_vt_impl_get_service_add_detail service priv service add_detail).isSome = true ↔
      ∃ p ∈ catalog priv, p.name = add_detail) ∧
    (∀ pre p post, catalog priv = pre ++ p :: post →
      (∀ q ∈ pre, q.name ≠ add_detail) → p.name = add_detail →
      _vt_impl_get_service_add_detail service priv service add_detail =
        some { pretty_name := p.pretty_name ++ " (OpenConnect)".toList
               description := p.description
               add_detail_key := if pre.length = 0 then none else some OCKey.PROTOCOL
               add_detail_val := if pre.length = 0 then none else some add_detail
               flags := 0 }) ∧
    (catalog fallback_priv).map oc_vpn_proto.name = ["anyconnect".toList, "nc".toList] ∧
    ((_vt_impl_get_service_add_detail service fallback_priv service "anyconnect".toList).map
      fun r => (r.add_detail_key, r.add_detail_val)) = some (none, none) ∧
    ((_vt_impl_get_service_add_detail service fallback_priv service "nc".toList).map
      fun r => (r.add_detail_key, r.add_detail_val)) =
        some (some OCKey.PROTOCOL, some "nc".toList) ∧
    _vt_impl_get_service_add_detail service fallback_priv service "bogus-protocol".toList =
      none := by
  have hsvc : ∀ pr a, _vt_impl_get_service_add_detail service pr service a =
      add_detail_loop a 0 (catalog pr) := by
    intro pr a; simp [_vt_impl_get_service_add_detail]
  refine ⟨?_, ?_, by decide, ?_, ?_, ?_⟩
  · rw [hsvc]
    constructor
    · intro h
      by_contra hno
      have : add_detail_loop add_detail 0 (catalog priv) = none :=
        (add_detail_loop_none _ _ _).2 (fun p hp e => hno ⟨p, hp, e⟩)
      rw [this] at h
      simp at h
    · rintro ⟨p, hp, e⟩
      cases hr : add_detail_loop add_detail 0 (catalog priv) with
      | none => exact absurd e ((add_detail_loop_none _ _ _).1 hr p hp)
      | some r => rfl
  · intro pre p post hcat hpre hp
    rw [hsvc, hcat, add_detail_loop_first add_detail pre post p 0 hpre hp]
    simp [add_detail_answer]
  · rw [hsvc]; decide
  · rw [hsvc]; decide
  · rw [hsvc]; decide

theorem add_detail_lookup_witness :
    _vt_impl_get_service_add_detail sample_service fallback_priv sample_service "nc".toList =
      some { pretty_name := "Juniper Network Connect (OpenConnect)".toList
             description := "Compatible with Juniper Network Connect".toList
             add_detail_key := some OCKey.PROTOCOL
             add_detail_val := some "nc".toList
             flags := 0 } :=
  (add_detail_lookup sample_service fallback_priv "nc".toList).2.1
    (catalog fallback_priv).dropLast ((catalog fallback_priv).drop 1).headI []
    (by decide) (by decide) (by decide)

/-- C9 (counterexample): the secret store holds a token secret (the empty string)
and the plain data hold `abc` under the same key; `export` writes
`StokenString=abc`, the plain data item, not the secret. -/
theorem export_empty_secret_falls_back :
    nm_setting_vpn_get_secret c9_empty_secret.s_vpn .TOKEN_SECRET = some [] ∧
    nm_setting_vpn_get_data_item c9_empty_secret.s_vpn .TOKEN_SECRET = some "abc".toList ∧
    (export_ true c9_empty_secret).success = true ∧
    exported_value c9_empty_secret "StokenString".toList = some "abc".toList ∧
    exported_value c9_empty_secret "StokenString".toList ≠
      nm_setting_vpn_get_secret c9_empty_secret.s_vpn .TOKEN_SECRET := by
  decide

/-- C9 (amended): for a connection with a non-empty gateway, the StokenString
value written is the token secret of the secret store when that is a non-empty
string; when the secret store holds none or an empty one, it is the plain data
item under the same key; when there is no such data item either, it is the
empty string. -/
theorem export_token_secret_source (connection : NMConnection) (gateway : Str)
    (hg : nm_setting_vpn_get_data_item connection.s_vpn .GATEWAY = some gateway)
    (hne : gateway ≠ []) :
    (∀ secret, nm_setting_vpn_get_secret connection.s_vpn .TOKEN_SECRET = some secret →
      secret ≠ [] → exported_value connection "StokenString".toList = some secret) ∧
    ((nm_setting_vpn_get_secret connection.s_vpn .TOKEN_SECRET = none ∨
        nm_setting_vpn_get_secret connection.s_vpn .TOKEN_SECRET = some []) →
      (∀ item, nm_setting_vpn_get_data_item connection.s_vpn .TOKEN_SECRET = some item →
        exported_value connection "StokenString".toList = some item) ∧
      (nm_setting_vpn_get_data_item connection.s_vpn .TOKEN_SECRET = none →
        exported_value connection "StokenString".toList = some [])) := by
  have hval : exported_value connection "StokenString".toList =
      some (or_empty (export_token_secret connection.s_vpn)) := by
    simp only [exported_value, non_empty_eq_some hg hne, export_arguments]
    rfl
  refine ⟨?_, ?_⟩
  · intro secret hs hsne
    rw [hval]
    simp [export_token_secret, non_empty_eq_some hs hsne, or_empty]
  · intro hs
    rw [hval]
    refine ⟨?_, ?_⟩
    · intro item hi
      simp only [export_token_secret, non_empty_eq_none hs]
      cases item with
      | nil => simp [non_empty_eq_none (Or.inr hi), or_empty]
      | cons a l => simp [non_empty_eq_some hi (List.cons_ne_nil a l), or_empty]
    · intro hi
      simp [export_token_secret, non_empty_eq_none hs, non_empty_eq_none (Or.inl hi), or_empty]

theorem export_token_secret_source_witness :
    exported_value c9_both "StokenString".toList = some "xyz".toList :=
  (export_token_secret_source c9_both "vpn.example.com".toList (by decide) (by decide)).1
    "xyz".toList (by decide) (by decide)

/-- C10 (counterexample): the protocol is unset and the proxy item holds a line
feed followed by `Protocol=nc`; the written file has a second Protocol line, and
the imported protocol is `nc`, not `anyconnect`. -/
theorem export_import_protocol_overridden :
    (profile c10_two_lines).protocol = none ∧
    (profile c10_two_lines).gateway = some "vpn.example.com".toList ∧
    (export_ true c10_two_lines).success = true ∧
    (import_ sample_service (export_ true c10_two_lines).file).toOption.map
      (fun connection => (profile connection).protocol) = some (some "nc".toList) := by
  decide

/-- C10 (amended): for a connection with a non-empty gateway and no protocol
item, of which `export` writes no value that holds a line feed, exporting and
then importing the written file gives a connection whose protocol is
`anyconnect`. -/
theorem export_import_default_protocol (service : Str) (connection : NMConnection)
    (gateway : Str)
    (hg : (profile connection).gateway = some gateway) (hne : gateway ≠ [])
    (hprotocol : (profile connection).protocol = none)
    (hlines : ∀ a ∈ export_arguments connection gateway, '\n' ∉ fprintf_s a.2) :
    (export_ true connection).success = true ∧
    ∃ imported, import_ service (export_ true connection).file = .ok imported ∧
      (profile imported).protocol = some "anyconnect".toList := by
  have hg' : nm_setting_vpn_get_data_item connection.s_vpn .GATEWAY = some gateway := hg
  have hp' : nm_setting_vpn_get_data_item connection.s_vpn .PROTOCOL = none := hprotocol
  obtain ⟨-, hhost, -, hprot, -⟩ := export_lookup connection gateway
  rw [export_file connection gateway hg' hne]
  refine ⟨rfl, ?_⟩
  simp only [import_, load_export connection gateway hlines, get_string_stored, hhost,
    Option.map_some']
  refine ⟨_, rfl, ?_⟩
  rw [profile_import_settings]
  simp only [get_string_stored, hprot, hp', non_empty, Option.map_some', Option.getD_none]
  decide

theorem export_import_default_protocol_witness :
    (export_ true c10_plain).success = true ∧
    ∃ imported, import_ sample_service (export_ true c10_plain).file = .ok imported ∧
      (profile imported).protocol = some "anyconnect".toList :=
  export_import_default_protocol sample_service c10_plain "vpn.example.com".toList
    (by decide) (by decide) (by decide) (by decide)

/-- C12: when the destination cannot be opened for writing, `export` returns
FALSE with the UNKNOWN error for every connection, also for one without gateway
or with an empty one, and leaves the destination as it was; whenever `export`
reports BAD_DATA, the destination was opened, and it is left truncated and
empty. -/
theorem export_open_failure (connection : NMConnection) :
    export_ false connection = { success := false, error := some .UNKNOWN, file := none } ∧
    ((nm_setting_vpn_get_data_item connection.s_vpn .GATEWAY = none ∨
        nm_setting_vpn_get_data_item connection.s_vpn .GATEWAY = some []) →
      (export_ false connection).error = some .UNKNOWN ∧
      (export_ false connection).error ≠ some .BAD_DATA) ∧
    (∀ fopen_ok, (export_ fopen_ok connection).error = some .BAD_DATA →
      fopen_ok = true ∧ (export_ fopen_ok connection).file = some [] ∧
      (export_ fopen_ok connection).success = false) := by
  refine ⟨rfl, fun _ => ⟨rfl, by simp [export_]⟩, ?_⟩
  intro fopen_ok h
  cases fopen_ok with
  | false => simp [export_] at h
  | true =>
    refine ⟨rfl, ?_⟩
    cases hg : non_empty (nm_setting_vpn_get_data_item connection.s_vpn .GATEWAY) with
    | none => simp [export_, hg]
    | some gateway => simp [export_, hg] at h

theorem export_open_failure_witness :
    export_ false c12_gateway = { success := false, error := some .UNKNOWN, file := none } ∧
    ((export_ false c12_no_gateway).error = some .UNKNOWN ∧
      (export_ false c12_no_gateway).error ≠ some .BAD_DATA) ∧
    (true = true ∧ (export_ true c12_no_gateway).file = some [] ∧
      (export_ true c12_no_gateway).success = false) :=
  ⟨(export_open_failure c12_gateway).1,
   (export_open_failure c12_no_gateway).2.1 (Or.inl (by decide)),
   (export_open_failure c12_no_gateway).2.2 true (by decide)⟩

end NMOpenconnect
